import Mathlib

/-!
Verification development for the Infisical MCP server
(`src/flowmcp-server.ts`, HTTP/WebSocket variant, and the stdio variant).

The JSON data model, the zod schema validation, the tool dispatch of both
variants, and the JSON-RPC request handling of the HTTP variant are embedded
as executable Lean definitions, translated from the TypeScript source.
-/

namespace InfisicalMCP

/-- A JSON value, as produced by parsing a JSON-RPC body and as returned by
the remote secrets API. -/
inductive JValue where
  | jstr (s : String)
  | jbool (b : Bool)
  | jnum (n : Int)
  | jarr (xs : List JValue)
  | jobj (fields : List (String × JValue))

/-- A JSON object, as a list of key/value fields in declaration order. -/
abbrev JObj := List (String × JValue)

/-- Property access `o[k]` on a JSON object: the first field named `k`,
or `none` (JavaScript `undefined`) when absent. -/
def lookupField (o : JObj) (k : String) : Option JValue :=
  (o.find? (fun p => p.1 == k)).map (fun p => p.2)

/-- Property access on an arbitrary JSON value; non-objects have no fields. -/
def jField (v : JValue) (k : String) : Option JValue :=
  match v with
  | .jobj o => lookupField o k
  | _ => none

/-! ## The zod schema model

Both variants validate tool arguments with zod object schemas built from
`z.string()`, `z.boolean()`, `z.number()`, `z.array(z.string())`,
`z.enum([...])`, combined with `.optional()` and `.default(v)`. -/

/-- The zod field types used by the schemas in the source. -/
inductive FieldType where
  | fstring
  | fboolean
  | fnumber
  | farray (elem : FieldType)
  | fenum (vals : List String)
deriving DecidableEq

/-- Whether a field is required, `.optional()`, or carries a `.default(v)`. -/
inductive Presence where
  | required
  | optional
  | withDefault (d : JValue)

/-- One field of a zod object schema: its type and its presence mode. -/
structure FieldSpec where
  ftype : FieldType
  presence : Presence

/-- A zod object schema, fields in declaration order. -/
abbrev Schema := List (String × FieldSpec)

/-- One zod issue: the path of the offending field (joined with dots, as the
stdio handler renders it) and the zod message. -/
structure Issue where
  path : String
  message : String
deriving DecidableEq

/-- Type check a JSON value against a zod field type. -/
def checkType : FieldType → JValue → Bool
  | .fstring, .jstr _ => true
  | .fboolean, .jbool _ => true
  | .fnumber, .jnum _ => true
  | .farray t, .jarr xs => xs.all (fun v => checkType t v)
  | .fenum vals, .jstr s => vals.contains s
  | _, _ => false

/-- The name zod uses for an expected field type in its messages. -/
def typeName : FieldType → String
  | .fstring => "string"
  | .fboolean => "boolean"
  | .fnumber => "number"
  | .farray _ => "array"
  | .fenum _ => "enum value"

/-- The name zod uses for the received value in its messages. -/
def receivedName : JValue → String
  | .jstr _ => "string"
  | .jbool _ => "boolean"
  | .jnum _ => "number"
  | .jarr _ => "array"
  | .jobj _ => "object"

/-- Validate one schema field against the raw argument object, as zod does:
a missing required field yields the issue message `Required`; a present value
of the wrong type yields a type-mismatch issue (element-level paths inside
arrays are coarsened to the field path); a missing optional field is dropped;
a missing defaulted field takes its default. -/
def parseField (name : String) (spec : FieldSpec) (args : JObj) :
    Except Issue (Option (String × JValue)) :=
  match lookupField args name with
  | some v =>
      if checkType spec.ftype v then .ok (some (name, v))
      else .error ⟨name, "Expected " ++ typeName spec.ftype ++ ", received " ++ receivedName v⟩
  | none =>
      match spec.presence with
      | .required => .error ⟨name, "Required"⟩
      | .optional => .ok none
      | .withDefault d => .ok (some (name, d))

/-- The issues of all schema fields, in schema order. -/
def parseIssues (schema : Schema) (args : JObj) : List Issue :=
  schema.filterMap (fun p =>
    match parseField p.1 p.2 args with
    | .error e => some e
    | .ok _ => none)

/-- The validated arguments: the schema's fields that are present or
defaulted (zod strips unknown keys). -/
def parseValues (schema : Schema) (args : JObj) : JObj :=
  schema.filterMap (fun p =>
    match parseField p.1 p.2 args with
    | .ok r => r
    | .error _ => none)

/-- `schema.parse(args)` for a zod object schema: throws the collected
issues when any field fails, otherwise returns the validated arguments. -/
def parseObject (schema : Schema) (args : JObj) : Except (List Issue) JObj :=
  if (parseIssues schema args).isEmpty then .ok (parseValues schema args)
  else .error (parseIssues schema args)

/-- The fields a schema marks required. -/
def requiredFields (schema : Schema) : List String :=
  schema.filterMap (fun p =>
    match p.2.presence with
    | .required => some p.1
    | _ => none)

/-! Accessors on validated arguments, standing for the typed field reads
(`data.secretName`, `data.secretValue ?? ""`, ...) on zod's parse output. -/

/-- Read a string field of validated arguments. -/
def getStr (o : JObj) (k : String) : String :=
  match lookupField o k with
  | some (.jstr s) => s
  | _ => ""

/-- Read an optional string field of validated arguments. -/
def getStrOpt (o : JObj) (k : String) : Option String :=
  match lookupField o k with
  | some (.jstr s) => some s
  | _ => none

/-- Read a boolean field of validated arguments. -/
def getBool (o : JObj) (k : String) : Bool :=
  match lookupField o k with
  | some (.jbool b) => b
  | _ => false

/-- Read an optional boolean field of validated arguments. -/
def getBoolOpt (o : JObj) (k : String) : Option Bool :=
  match lookupField o k with
  | some (.jbool b) => some b
  | _ => none

/-- Read an optional number field of validated arguments. -/
def getNumOpt (o : JObj) (k : String) : Option Int :=
  match lookupField o k with
  | some (.jnum n) => some n
  | _ => none

/-- Read a string-array field of validated arguments. -/
def getStrArr (o : JObj) (k : String) : List String :=
  match lookupField o k with
  | some (.jarr xs) => xs.filterMap (fun v =>
      match v with
      | .jstr s => some s
      | _ => none)
  | _ => []

/-- Read an optional string-array field of validated arguments. -/
def getStrArrOpt (o : JObj) (k : String) : Option (List String) :=
  match lookupField o k with
  | some (.jarr xs) => some (xs.filterMap (fun v =>
      match v with
      | .jstr s => some s
      | _ => none))
  | _ => none

/-! ## JSON serialization (`JSON.stringify`)

The handlers serialize remote responses with `JSON.stringify(x)` (compact)
or `JSON.stringify(x, null, 3)` (three-space indentation). -/

/-- Escape one character for a JSON string literal. -/
def escapeJsonChar (c : Char) : String :=
  if c = '"' then "\\\""
  else if c = '\\' then "\\\\"
  else if c = '\n' then "\\n"
  else if c = '\t' then "\\t"
  else if c = '\r' then "\\r"
  else String.singleton c

/-- Escape a string for a JSON string literal. -/
def escapeJsonString (s : String) : String :=
  s.data.foldl (fun acc c => acc ++ escapeJsonChar c) ""

/-- A JSON string literal: quoted and escaped. -/
def quoteJson (s : String) : String := "\"" ++ escapeJsonString s ++ "\""

/-- `n` spaces of indentation. -/
def spaces (n : Nat) : String := String.mk (List.replicate n ' ')

mutual

/-- `JSON.stringify` with the given indentation width (`0` = compact) at the
given nesting level. -/
def stringifyAux (indent level : Nat) : JValue → String
  | .jstr s => quoteJson s
  | .jbool b => if b then "true" else "false"
  | .jnum n => toString n
  | .jarr l =>
      if l.isEmpty then "[]"
      else if indent = 0 then
        "[" ++ String.intercalate "," (stringifyList indent level l) ++ "]"
      else
        "[\n" ++
          String.intercalate ",\n"
            ((stringifyList indent (level + 1) l).map
              (fun t => spaces (indent * (level + 1)) ++ t)) ++
          "\n" ++ spaces (indent * level) ++ "]"
  | .jobj o =>
      if o.isEmpty then "\x7b\x7d"
      else if indent = 0 then
        "\x7b" ++ String.intercalate "," (stringifyFields indent level o) ++ "\x7d"
      else
        "\x7b\n" ++
          String.intercalate ",\n"
            ((stringifyFields indent (level + 1) o).map
              (fun t => spaces (indent * (level + 1)) ++ t)) ++
          "\n" ++ spaces (indent * level) ++ "\x7d"

/-- Serialize the elements of a JSON array. -/
def stringifyList (indent level : Nat) : List JValue → List String
  | [] => []
  | x :: xs => stringifyAux indent level x :: stringifyList indent level xs

/-- Serialize the fields of a JSON object (`"key": value`). -/
def stringifyFields (indent level : Nat) : List (String × JValue) → List String
  | [] => []
  | (k, v) :: rest =>
      (quoteJson k ++ (if indent = 0 then ":" else ": ") ++ stringifyAux indent level v) ::
        stringifyFields indent level rest

end

/-- `JSON.stringify(v)`. -/
def stringifyCompact (v : JValue) : String := stringifyAux 0 0 v

/-- `JSON.stringify(v, null, 3)`. -/
def stringifyPretty (v : JValue) : String := stringifyAux 3 0 v

/-- `JSON.stringify(x, null, 3)` interpolated into a template literal, where
`x` may be `undefined` (a missing field): `JSON.stringify(undefined)` is
`undefined`, which interpolates as the text `undefined`. -/
def stringifyDisplay : Option JValue → String
  | some v => stringifyPretty v
  | none => "undefined"

mutual

/-- JavaScript `String(x)` as used by template-literal interpolation of a
non-string value. -/
def jDisplayVal : JValue → String
  | .jstr s => s
  | .jbool b => if b then "true" else "false"
  | .jnum n => toString n
  | .jarr xs => String.intercalate "," (jDisplayList xs)
  | .jobj _ => "[object Object]"

/-- Interpolation of the elements of an array (JavaScript array `toString`). -/
def jDisplayList : List JValue → List String
  | [] => []
  | x :: xs => jDisplayVal x :: jDisplayList xs

end

/-- Template-literal interpolation of a possibly-missing value. -/
def jDisplay : Option JValue → String
  | some v => jDisplayVal v
  | none => "undefined"

/-! ## The remote secrets API

The `@infisical/sdk` client is an external collaborator: its operations are
modelled as an oracle (`RemoteApi`) supplying each operation's response, and
each handler records the calls it performs in a `RemoteCall` trace. -/

/-- One secret record in the remote list-secrets response: its key, its
value, and its remaining metadata fields. -/
structure RemoteSecret where
  secretKey : String
  secretValue : String
  extra : List (String × JValue)

/-- The full JSON form of a remote secret record (metadata included). -/
def RemoteSecret.toJson (s : RemoteSecret) : JValue :=
  .jobj ([("secretKey", .jstr s.secretKey), ("secretValue", .jstr s.secretValue)] ++ s.extra)

/-- One secret-import entry of the remote list-secrets response: its fields
other than `secrets`, and its secrets. -/
structure SecretImport where
  meta : List (String × JValue)
  secrets : List RemoteSecret

/-- The full JSON form of a secret-import entry. -/
def SecretImport.toJson (imp : SecretImport) : JValue :=
  .jobj (imp.meta ++ [("secrets", .jarr (imp.secrets.map RemoteSecret.toJson))])

/-- The remote `listSecrets` response: the secrets and the optional imports. -/
structure ListSecretsResponse where
  secrets : List RemoteSecret
  imports : Option (List SecretImport)

/-- The full JSON form of the remote `listSecrets` response. -/
def ListSecretsResponse.toJson (r : ListSecretsResponse) : JValue :=
  .jobj (("secrets", JValue.jarr (r.secrets.map RemoteSecret.toJson)) ::
    (match r.imports with
     | some imps => [("imports", JValue.jarr (imps.map SecretImport.toJson))]
     | none => []))

/-- A call to the remote API: the credential exchange
(`auth().universalAuth.login`) or one of the SDK operations, with the options
object passed at the call site (`none` values stand for fields whose value is
`undefined`). -/
inductive RemoteCall where
  | authLogin
  | createSecret (secretName : String) (options : List (String × Option JValue))
  | deleteSecret (secretName : String) (options : List (String × Option JValue))
  | updateSecret (secretName : String) (options : List (String × Option JValue))
  | listSecrets (options : List (String × Option JValue))
  | getSecret (options : List (String × Option JValue))
  | createProject (options : List (String × Option JValue))
  | listProjects
  | createEnvironment (options : List (String × Option JValue))
  | createFolder (options : List (String × Option JValue))
  | inviteMembers (options : List (String × Option JValue))

/-- The oracle for the remote API: whether the credential exchange succeeds
(and the message of the failure when it does not), and the response each
operation returns. The responses are fixed per oracle; none of the verified
properties depends on responses varying with the request. -/
structure RemoteApi where
  authOk : Bool
  authErrorMessage : String
  createSecretResponse : JValue
  deleteSecretResponse : JValue
  updateSecretResponse : JValue
  listSecretsResponse : ListSecretsResponse
  getSecretResponse : JValue
  createProjectResponse : JValue
  listProjectsResponse : JValue
  createEnvironmentResponse : JValue
  createFolderResponse : JValue
  inviteMembersResponse : JValue

/-- One MCP content block (always `type: "text"` in this server). -/
structure ContentBlock where
  ctype : String
  text : String
deriving DecidableEq

/-- An MCP tool result: a list of content blocks. -/
structure ToolResult where
  content : List ContentBlock
deriving DecidableEq

/-- A single text content block. -/
def textResult (t : String) : ToolResult := ⟨[⟨"text", t⟩]⟩

/-- JSON form of a content block. -/
def ContentBlock.toJson (c : ContentBlock) : JValue :=
  .jobj [("type", .jstr c.ctype), ("text", .jstr c.text)]

/-- JSON form of a tool result. -/
def ToolResult.toJson (r : ToolResult) : JValue :=
  .jobj [("content", .jarr (r.content.map ContentBlock.toJson))]

/-! Field-spec shorthands for the zod combinators used by the source. -/

/-- `z.string()`. -/
def reqStr : FieldSpec := ⟨.fstring, .required⟩

/-- `z.string().optional()`. -/
def optStr : FieldSpec := ⟨.fstring, .optional⟩

/-- `z.string().default("/")`. -/
def slashDefault : FieldSpec := ⟨.fstring, .withDefault (.jstr "/")⟩

/-- `z.boolean().optional()`. -/
def optBool : FieldSpec := ⟨.fboolean, .optional⟩

/-- `z.boolean().default(true)`. -/
def trueDefault : FieldSpec := ⟨.fboolean, .withDefault (.jbool true)⟩

/-- `z.array(z.string())`. -/
def reqStrList : FieldSpec := ⟨.farray .fstring, .required⟩

/-- `z.array(z.string()).optional()`. -/
def optStrList : FieldSpec := ⟨.farray .fstring, .optional⟩

/-- `z.number().optional()`. -/
def optNum : FieldSpec := ⟨.fnumber, .optional⟩

/-! ## The tool registry (`tools/list` catalog entries)

Per-property description strings of the JSON input schemas are elided; the
structural content (names, types, defaults, required lists, order) follows
the source. -/

/-- One property of a tool's declared JSON input schema. -/
structure ToolProperty where
  name : String
  ptype : String
  pdefault : Option JValue

/-- One entry of the tool catalog. -/
structure ToolDef where
  name : String
  description : String
  properties : List ToolProperty
  required : List String

/-- JSON form of a declared property (description elided). -/
def ToolProperty.toJson (p : ToolProperty) : JValue :=
  .jobj (("type", JValue.jstr p.ptype) ::
    (match p.pdefault with
     | some d => [("default", d)]
     | none => []))

/-- JSON form of a catalog entry. -/
def ToolDef.toJson (t : ToolDef) : JValue :=
  .jobj [("name", .jstr t.name), ("description", .jstr t.description),
    ("inputSchema", .jobj [("type", .jstr "object"),
      ("properties", .jobj (t.properties.map (fun p => (p.name, p.toJson)))),
      ("required", .jarr (t.required.map JValue.jstr))])]

/-- The server version read from `package.json` at startup, fixed here. -/
def packageVersion : String := "1.0.0"

/-- The message of a thrown `ZodError`: the serialized issue list
(`JSON.stringify(issues, null, 2)`; the issue objects are abbreviated to
their `path` and `message` fields). -/
def zodErrorMessage (issues : List Issue) : String :=
  stringifyAux 2 0 (.jarr (issues.map (fun i =>
    .jobj [("path", .jarr [.jstr i.path]), ("message", .jstr i.message)])))

namespace Http

/-! ## The HTTP/WebSocket variant (`FlowMCPHttpServer`) -/

/-- HTTP variant `createSecretSchema`. -/
def createSecretSchema : Schema :=
  [("projectId", reqStr), ("environmentSlug", reqStr), ("secretName", reqStr),
   ("secretValue", optStr), ("secretPath", slashDefault)]

/-- HTTP variant `deleteSecretSchema`. -/
def deleteSecretSchema : Schema :=
  [("projectId", reqStr), ("environmentSlug", reqStr), ("secretName", reqStr),
   ("secretPath", slashDefault)]

/-- HTTP variant `updateSecretSchema`. -/
def updateSecretSchema : Schema :=
  [("projectId", reqStr), ("environmentSlug", reqStr), ("secretName", reqStr),
   ("secretValue", optStr), ("secretPath", slashDefault)]

/-- HTTP variant `listSecretsSchema`. -/
def listSecretsSchema : Schema :=
  [("projectId", reqStr), ("environmentSlug", reqStr), ("secretPath", slashDefault),
   ("expandSecretReferences", optBool), ("includeImports", optBool)]

/-- HTTP variant `getSecretSchema`. -/
def getSecretSchema : Schema :=
  [("projectId", reqStr), ("environmentSlug", reqStr), ("secretName", reqStr),
   ("secretPath", slashDefault), ("expandSecretReferences", optBool),
   ("includeImports", optBool)]

/-- HTTP variant `createProjectSchema`. -/
def createProjectSchema : Schema :=
  [("projectName", reqStr), ("workspaceSlug", optStr), ("organizationId", optStr)]

/-- HTTP variant `listProjectsSchema`. -/
def listProjectsSchema : Schema := []

/-- HTTP variant `createEnvironmentSchema`. -/
def createEnvironmentSchema : Schema :=
  [("projectId", reqStr), ("environmentName", reqStr), ("environmentSlug", optStr)]

/-- HTTP variant `createFolderSchema`. -/
def createFolderSchema : Schema :=
  [("projectId", reqStr), ("environmentSlug", reqStr), ("secretPath", slashDefault)]

/-- HTTP variant `inviteMembersToProjectSchema`. -/
def inviteMembersToProjectSchema : Schema :=
  [("projectId", reqStr), ("emails", reqStrList), ("roles", optStrList)]

/-- The HTTP variant's `tools` catalog (nine entries, declaration order). -/
def tools : List ToolDef :=
  [⟨"create-secret", "Create a new secret in Infisical",
    [⟨"projectId", "string", none⟩, ⟨"environmentSlug", "string", none⟩,
     ⟨"secretName", "string", none⟩, ⟨"secretValue", "string", none⟩,
     ⟨"secretPath", "string", some (.jstr "/")⟩],
    ["projectId", "environmentSlug", "secretName"]⟩,
   ⟨"delete-secret", "Delete a secret in Infisical",
    [⟨"projectId", "string", none⟩, ⟨"environmentSlug", "string", none⟩,
     ⟨"secretName", "string", none⟩, ⟨"secretPath", "string", some (.jstr "/")⟩],
    ["projectId", "environmentSlug", "secretName"]⟩,
   ⟨"list-secrets", "List all secrets in an environment",
    [⟨"projectId", "string", none⟩, ⟨"environmentSlug", "string", none⟩,
     ⟨"secretPath", "string", some (.jstr "/")⟩,
     ⟨"expandSecretReferences", "boolean", none⟩, ⟨"includeImports", "boolean", none⟩],
    ["projectId", "environmentSlug"]⟩,
   ⟨"get-secret", "Get a specific secret",
    [⟨"projectId", "string", none⟩, ⟨"environmentSlug", "string", none⟩,
     ⟨"secretName", "string", none⟩, ⟨"secretPath", "string", some (.jstr "/")⟩,
     ⟨"expandSecretReferences", "boolean", none⟩, ⟨"includeImports", "boolean", none⟩],
    ["projectId", "environmentSlug", "secretName"]⟩,
   ⟨"create-project", "Create a new project",
    [⟨"projectName", "string", none⟩, ⟨"workspaceSlug", "string", none⟩,
     ⟨"organizationId", "string", none⟩],
    ["projectName"]⟩,
   ⟨"list-projects", "List all accessible projects", [], []⟩,
   ⟨"create-environment", "Create a new environment",
    [⟨"projectId", "string", none⟩, ⟨"environmentName", "string", none⟩,
     ⟨"environmentSlug", "string", none⟩],
    ["projectId", "environmentName"]⟩,
   ⟨"create-folder", "Create a folder",
    [⟨"projectId", "string", none⟩, ⟨"environmentSlug", "string", none⟩,
     ⟨"secretPath", "string", some (.jstr "/")⟩],
    ["projectId", "environmentSlug"]⟩,
   ⟨"invite-members-to-project", "Invite members to a project",
    [⟨"projectId", "string", none⟩, ⟨"emails", "array", none⟩, ⟨"roles", "array", none⟩],
    ["projectId", "emails"]⟩]

/-- The tool-name list of the `GET /mcp` discovery document. -/
def mcpDiscoveryToolNames : List String :=
  ["create-secret", "delete-secret", "list-secrets",
   "get-secret", "create-project", "list-projects",
   "create-environment", "create-folder", "invite-members-to-project"]

/-- The error a `tools/call` can throw in the HTTP variant: a `ZodError`
from `schema.parse`, the wrapped authentication failure thrown by
`createAuthenticatedSdk`, or the unknown-tool error of the default case. -/
inductive ToolCallError where
  | zodError (issues : List Issue)
  | authError (message : String)
  | unknownTool (name : String)

/-- The `message` of a thrown error, as read by the catch block. -/
def ToolCallError.message : ToolCallError → String
  | .zodError issues => zodErrorMessage issues
  | .authError m => m
  | .unknownTool n => "Unknown tool: " ++ n

/-- `const data = schema.parse(args); <rest>`: a thrown `ZodError` aborts the
branch with no remote call; otherwise the branch continues on the validated
arguments. -/
def withParsed {ε : Type} (wrap : List Issue → ε) (s : Schema) (args : JObj)
    (k : JObj → Except ε ToolResult × List RemoteCall) :
    Except ε ToolResult × List RemoteCall :=
  match parseObject s args with
  | .error issues => (.error (wrap issues), [])
  | .ok data => k data

/-- `const sdk = await createAuthenticatedSdk(); <rest>`: the credential
exchange runs first; on failure the branch aborts with the wrapped
authentication error and only the login call in its trace. -/
def withAuth (api : RemoteApi) (k : Except ToolCallError ToolResult × List RemoteCall) :
    Except ToolCallError ToolResult × List RemoteCall :=
  if api.authOk then (k.1, .authLogin :: k.2)
  else (.error (.authError ("Authentication failed: " ++ api.authErrorMessage)), [.authLogin])

/-- `handleToolCall`, case `create-secret`. -/
def handleCreateSecret (api : RemoteApi) (args : JObj) :
    Except ToolCallError ToolResult × List RemoteCall :=
  withParsed ToolCallError.zodError createSecretSchema args (fun d =>
    withAuth api
      (.ok (textResult ("Secret created successfully: " ++
          stringifyDisplay (jField api.createSecretResponse "secret"))),
       [.createSecret (getStr d "secretName")
          [("environment", some (.jstr (getStr d "environmentSlug"))),
           ("projectId", some (.jstr (getStr d "projectId"))),
           ("secretPath", some (.jstr (getStr d "secretPath"))),
           ("secretValue", some (.jstr ((getStrOpt d "secretValue").getD "")))]]))

/-- `handleToolCall`, case `delete-secret`. -/
def handleDeleteSecret (api : RemoteApi) (args : JObj) :
    Except ToolCallError ToolResult × List RemoteCall :=
  withParsed ToolCallError.zodError deleteSecretSchema args (fun d =>
    withAuth api
      (.ok (textResult ("Secret deleted successfully: " ++
          jDisplay (jField api.deleteSecretResponse "secretKey"))),
       [.deleteSecret (getStr d "secretName")
          [("environment", some (.jstr (getStr d "environmentSlug"))),
           ("projectId", some (.jstr (getStr d "projectId"))),
           ("secretPath", some (.jstr (getStr d "secretPath")))]]))

/-- `handleToolCall`, case `update-secret`. -/
def handleUpdateSecret (api : RemoteApi) (args : JObj) :
    Except ToolCallError ToolResult × List RemoteCall :=
  withParsed ToolCallError.zodError updateSecretSchema args (fun d =>
    withAuth api
      (.ok (textResult ("Secret updated successfully: " ++
          stringifyPretty api.updateSecretResponse)),
       [.updateSecret (getStr d "secretName")
          [("environment", some (.jstr (getStr d "environmentSlug"))),
           ("projectId", some (.jstr (getStr d "projectId"))),
           ("secretPath", some (.jstr (getStr d "secretPath"))),
           ("secretValue", some (.jstr ((getStrOpt d "secretValue").getD "")))]]))

/-- `handleToolCall`, case `list-secrets`: the whole remote response object
is serialized. -/
def handleListSecrets (api : RemoteApi) (args : JObj) :
    Except ToolCallError ToolResult × List RemoteCall :=
  withParsed ToolCallError.zodError listSecretsSchema args (fun d =>
    withAuth api
      (.ok (textResult ("Secrets: " ++ stringifyPretty api.listSecretsResponse.toJson)),
       [.listSecrets
          [("environment", some (.jstr (getStr d "environmentSlug"))),
           ("projectId", some (.jstr (getStr d "projectId"))),
           ("secretPath", some (.jstr (getStr d "secretPath"))),
           ("expandSecretReferences", (getBoolOpt d "expandSecretReferences").map JValue.jbool),
           ("includeImports", (getBoolOpt d "includeImports").map JValue.jbool)]]))

/-- `handleToolCall`, case `get-secret`: lists the secrets remotely and
searches the listing for the requested key; a miss is reported as a normal
text result. -/
def handleGetSecret (api : RemoteApi) (args : JObj) :
    Except ToolCallError ToolResult × List RemoteCall :=
  withParsed ToolCallError.zodError getSecretSchema args (fun d =>
    withAuth api
      (match api.listSecretsResponse.secrets.find?
          (fun s => s.secretKey == getStr d "secretName") with
       | some s => .ok (textResult ("Secret: " ++ stringifyPretty s.toJson))
       | none => .ok (textResult ("Secret not found: " ++ getStr d "secretName")),
       [.listSecrets
          [("environment", some (.jstr (getStr d "environmentSlug"))),
           ("projectId", some (.jstr (getStr d "projectId"))),
           ("secretPath", some (.jstr (getStr d "secretPath"))),
           ("expandSecretReferences", (getBoolOpt d "expandSecretReferences").map JValue.jbool),
           ("includeImports", (getBoolOpt d "includeImports").map JValue.jbool)]]))

/-- `handleToolCall`, case `create-project`. -/
def handleCreateProject (api : RemoteApi) (args : JObj) :
    Except ToolCallError ToolResult × List RemoteCall :=
  withParsed ToolCallError.zodError createProjectSchema args (fun d =>
    withAuth api
      (.ok (textResult ("Project created successfully: " ++
          stringifyPretty api.createProjectResponse)),
       [.createProject
          [("name", some (.jstr (getStr d "projectName"))),
           ("workspaceSlug", (getStrOpt d "workspaceSlug").map JValue.jstr),
           ("organizationId", (getStrOpt d "organizationId").map JValue.jstr)]]))

/-- `handleToolCall`, case `list-projects` (no argument validation). -/
def handleListProjects (api : RemoteApi) :
    Except ToolCallError ToolResult × List RemoteCall :=
  withAuth api
    (.ok (textResult ("Projects: " ++ stringifyPretty api.listProjectsResponse)),
     [.listProjects])

/-- `handleToolCall`, case `create-environment`. -/
def handleCreateEnvironment (api : RemoteApi) (args : JObj) :
    Except ToolCallError ToolResult × List RemoteCall :=
  withParsed ToolCallError.zodError createEnvironmentSchema args (fun d =>
    withAuth api
      (.ok (textResult ("Environment created successfully: " ++
          stringifyPretty api.createEnvironmentResponse)),
       [.createEnvironment
          [("projectId", some (.jstr (getStr d "projectId"))),
           ("name", some (.jstr (getStr d "environmentName"))),
           ("slug", (getStrOpt d "environmentSlug").map JValue.jstr)]]))

/-- `handleToolCall`, case `create-folder`: validates, then returns a
placeholder text without any remote call. -/
def handleCreateFolder (args : JObj) :
    Except ToolCallError ToolResult × List RemoteCall :=
  withParsed ToolCallError.zodError createFolderSchema args (fun d =>
    (.ok (textResult ("Folder creation request for path: " ++ getStr d "secretPath" ++
        ". Note: This functionality may need to be implemented based on your Infisical API version.")),
     []))

/-- `handleToolCall`, case `invite-members-to-project`: validates, then
returns a placeholder text without any remote call. -/
def handleInviteMembers (args : JObj) :
    Except ToolCallError ToolResult × List RemoteCall :=
  withParsed ToolCallError.zodError inviteMembersToProjectSchema args (fun d =>
    (.ok (textResult ("Member invitation request for project: " ++ getStr d "projectId" ++
        ", emails: " ++ String.intercalate ", " (getStrArr d "emails") ++
        ". Note: This functionality may need to be implemented based on your Infisical API version.")),
     []))

/-- `FlowMCPHttpServer.handleToolCall`: the switch over the tool name. -/
def handleToolCall (api : RemoteApi) (name : String) (args : JObj) :
    Except ToolCallError ToolResult × List RemoteCall :=
  if name = "create-secret" then handleCreateSecret api args
  else if name = "delete-secret" then handleDeleteSecret api args
  else if name = "update-secret" then handleUpdateSecret api args
  else if name = "list-secrets" then handleListSecrets api args
  else if name = "get-secret" then handleGetSecret api args
  else if name = "create-project" then handleCreateProject api args
  else if name = "list-projects" then handleListProjects api
  else if name = "create-environment" then handleCreateEnvironment api args
  else if name = "create-folder" then handleCreateFolder args
  else if name = "invite-members-to-project" then handleInviteMembers args
  else (.error (.unknownTool name), [])

/-- The tool-name → zod-schema table of `handleToolCall` (every case that
validates its arguments, i.e. all but `list-projects`). -/
def toolSchemas : List (String × Schema) :=
  [("create-secret", createSecretSchema), ("delete-secret", deleteSecretSchema),
   ("update-secret", updateSecretSchema), ("list-secrets", listSecretsSchema),
   ("get-secret", getSecretSchema), ("create-project", createProjectSchema),
   ("create-environment", createEnvironmentSchema), ("create-folder", createFolderSchema),
   ("invite-members-to-project", inviteMembersToProjectSchema)]

/-- The `params` of a `tools/call` request. -/
structure CallParams where
  name : String
  arguments : JObj

/-- An incoming JSON-RPC envelope: requests and notifications differ only by
the absence of `id`. -/
structure RpcRequest where
  id : Option JValue
  method : Option String
  params : Option CallParams

/-- What the HTTP layer sends back: a JSON body with a status code, or a
204 no-content acknowledgment. -/
inductive HttpResponse where
  | json (status : Nat) (body : JValue)
  | noContent

/-- The `id` field of a response body; an `undefined` id is dropped by
`JSON.stringify`, so an absent request id yields no `id` field. -/
def idField : Option JValue → List (String × JValue)
  | some v => [("id", v)]
  | none => []

/-- The `initialize` result object. -/
def initializeResult : JValue :=
  .jobj [("protocolVersion", .jstr "2024-11-05"),
    ("capabilities", .jobj [("tools", .jobj []), ("logging", .jobj []),
      ("streaming", .jbool true)]),
    ("serverInfo", .jobj [("name", .jstr "Infisical FlowMCP HTTP Server"),
      ("version", .jstr packageVersion)])]

/-- The -32603 internal-error body emitted by the catch block. -/
def internalError (id : Option JValue) (msg : String) : JValue :=
  .jobj ([("jsonrpc", .jstr "2.0"),
    ("error", .jobj [("code", .jnum (-32603)),
      ("message", .jstr ("Internal error: " ++ msg))])] ++ idField id)

/-- An absent `method` interpolates as `undefined` in the not-found message. -/
def methodDisplay : Option String → String
  | some m => m
  | none => "undefined"

/-- `FlowMCPHttpServer.handleJsonRpcRequest`: the JSON-RPC method dispatch,
with the catch block folded into the `tools/call` case (the only case that
can throw). -/
def handleJsonRpcRequest (api : RemoteApi) (req : RpcRequest) : HttpResponse :=
  if req.method = some "initialize" then
    .json 200 (.jobj ([("jsonrpc", .jstr "2.0"), ("result", initializeResult)] ++
      idField req.id))
  else if req.method = some "notifications/initialized" then
    .noContent
  else if req.method = some "tools/list" then
    .json 200 (.jobj ([("jsonrpc", .jstr "2.0"),
      ("result", .jobj [("tools", .jarr (tools.map ToolDef.toJson))])] ++
      idField req.id))
  else if req.method = some "tools/call" then
    match req.params with
    | none =>
        .json 500 (internalError req.id
          "Cannot destructure property name of params as it is undefined")
    | some p =>
        match handleToolCall api p.name p.arguments with
        | (.ok r, _) =>
            .json 200 (.jobj ([("jsonrpc", .jstr "2.0"), ("result", r.toJson)] ++
              idField req.id))
        | (.error e, _) => .json 500 (internalError req.id e.message)
  else
    .json 404 (.jobj ([("jsonrpc", .jstr "2.0"),
      ("error", .jobj [("code", .jnum (-32601)),
        ("message", .jstr ("Method not found: " ++ methodDisplay req.method))])] ++
      idField req.id))

end Http

namespace Stdio

/-! ## The stdio variant (the `Server` with the
`ListToolsRequestSchema` / `CallToolRequestSchema` handlers)

Each tool is declared as a zod schema plus an MCP capability; the
`AvailableTools` enum values are the literal tool-name strings used below. -/

/-- A stdio tool declaration: the zod schema and the advertised capability. -/
structure SchemaDef where
  zod : Schema
  capability : ToolDef

/-- Stdio `createSecretSchema`. -/
def createSecretSchema : SchemaDef :=
  ⟨[("projectId", reqStr), ("environmentSlug", reqStr), ("secretName", reqStr),
    ("secretValue", optStr), ("secretPath", slashDefault)],
   ⟨"create-secret", "Create a new secret in Infisical",
    [⟨"projectId", "string", none⟩, ⟨"environmentSlug", "string", none⟩,
     ⟨"secretName", "string", none⟩, ⟨"secretValue", "string", none⟩,
     ⟨"secretPath", "string", none⟩],
    ["projectId", "environmentSlug", "secretName"]⟩⟩

/-- Stdio `deleteSecretSchema`. -/
def deleteSecretSchema : SchemaDef :=
  ⟨[("projectId", reqStr), ("environmentSlug", reqStr), ("secretPath", slashDefault),
    ("secretName", reqStr)],
   ⟨"delete-secret", "Delete a secret in Infisical",
    [⟨"projectId", "string", none⟩, ⟨"environmentSlug", "string", none⟩,
     ⟨"secretPath", "string", none⟩, ⟨"secretName", "string", none⟩],
    ["projectId", "environmentSlug", "secretName"]⟩⟩

/-- Stdio `updateSecretSchema`. -/
def updateSecretSchema : SchemaDef :=
  ⟨[("projectId", reqStr), ("environmentSlug", reqStr), ("secretName", reqStr),
    ("newSecretName", optStr), ("secretValue", optStr), ("secretPath", slashDefault)],
   ⟨"update-secret", "Update a secret in Infisical",
    [⟨"projectId", "string", none⟩, ⟨"environmentSlug", "string", none⟩,
     ⟨"secretName", "string", none⟩, ⟨"newSecretName", "string", none⟩,
     ⟨"secretValue", "string", none⟩, ⟨"secretPath", "string", none⟩],
    ["projectId", "environmentSlug", "secretName"]⟩⟩

/-- Stdio `listSecretsSchema`. -/
def listSecretsSchema : SchemaDef :=
  ⟨[("projectId", reqStr), ("environmentSlug", reqStr), ("secretPath", slashDefault),
    ("expandSecretReferences", trueDefault), ("includeImports", trueDefault)],
   ⟨"list-secrets", "List all secrets in a given Infisical project and environment",
    [⟨"projectId", "string", none⟩, ⟨"environmentSlug", "string", none⟩,
     ⟨"secretPath", "string", none⟩, ⟨"expandSecretReferences", "boolean", none⟩,
     ⟨"includeImports", "boolean", none⟩],
    ["projectId", "environmentSlug"]⟩⟩

/-- Stdio `getSecretSchema`. -/
def getSecretSchema : SchemaDef :=
  ⟨[("secretName", reqStr), ("projectId", reqStr), ("environmentSlug", reqStr),
    ("secretPath", slashDefault), ("expandSecretReferences", trueDefault),
    ("includeImports", trueDefault)],
   ⟨"get-secret", "Get a secret in Infisical",
    [⟨"secretName", "string", none⟩, ⟨"projectId", "string", none⟩,
     ⟨"environmentSlug", "string", none⟩, ⟨"secretPath", "string", none⟩,
     ⟨"expandSecretReferences", "boolean", none⟩, ⟨"includeImports", "boolean", none⟩],
    ["projectId", "environmentSlug", "secretName"]⟩⟩

/-- Stdio `createProjectSchema`: `type` is a required enum. -/
def createProjectSchema : SchemaDef :=
  ⟨[("projectName", reqStr),
    ("type", ⟨.fenum ["secret-manager", "cert-manager", "kms", "ssh"], .required⟩),
    ("description", optStr), ("slug", optStr), ("projectTemplate", optStr),
    ("kmsKeyId", optStr)],
   ⟨"create-project", "Create a new project in Infisical",
    [⟨"projectName", "string", none⟩, ⟨"type", "string", none⟩,
     ⟨"description", "string", none⟩, ⟨"slug", "string", none⟩,
     ⟨"projectTemplate", "string", none⟩, ⟨"kmsKeyId", "string", none⟩],
    ["projectName", "type"]⟩⟩

/-- Stdio `createEnvironmentSchema`. -/
def createEnvironmentSchema : SchemaDef :=
  ⟨[("projectId", reqStr), ("name", reqStr), ("slug", reqStr), ("position", optNum)],
   ⟨"create-environment", "Create a new environment in Infisical",
    [⟨"projectId", "string", none⟩, ⟨"name", "string", none⟩, ⟨"slug", "string", none⟩,
     ⟨"position", "number", none⟩],
    ["projectId", "name", "slug"]⟩⟩

/-- Stdio `createFolderSchema`. -/
def createFolderSchema : SchemaDef :=
  ⟨[("description", optStr), ("environment", reqStr), ("name", reqStr),
    ("path", slashDefault), ("projectId", reqStr)],
   ⟨"create-folder", "Create a new folder in Infisical",
    [⟨"description", "string", none⟩, ⟨"environment", "string", none⟩,
     ⟨"name", "string", none⟩, ⟨"path", "string", none⟩, ⟨"projectId", "string", none⟩],
    ["name", "projectId", "environment"]⟩⟩

/-- Stdio `inviteMembersToProjectSchema`. -/
def inviteMembersToProjectSchema : SchemaDef :=
  ⟨[("projectId", reqStr), ("emails", optStrList), ("usernames", optStrList),
    ("roleSlugs", optStrList)],
   ⟨"invite-members-to-project", "Invite members to a project in Infisical",
    [⟨"projectId", "string", none⟩, ⟨"emails", "array", none⟩,
     ⟨"usernames", "array", none⟩, ⟨"roleSlugs", "array", none⟩],
    ["projectId"]⟩⟩

/-- The `ListToolsRequestSchema` handler: it runs in a process whose only
mutable state is the `isAuthenticated` flag (passed here), which it does not
read — it always returns the nine declared capabilities in declaration
order. -/
def listTools (_ : Bool) : List ToolDef :=
  [createSecretSchema.capability, deleteSecretSchema.capability,
   updateSecretSchema.capability, listSecretsSchema.capability,
   getSecretSchema.capability, createProjectSchema.capability,
   createEnvironmentSchema.capability, createFolderSchema.capability,
   inviteMembersToProjectSchema.capability]

/-- An error thrown inside the tool dispatch (before the catch block). -/
inductive BodyError where
  | zodError (issues : List Issue)
  | unrecognizedTool (name : String)

/-- The error surfaced by the `CallToolRequestSchema` handler after its
catch block: a wrapped validation message, the propagated authentication
failure, or the unrecognized-tool error. -/
inductive StdioError where
  | invalidArguments (message : String)
  | authError (message : String)
  | unrecognizedTool (name : String)

/-- The catch block's rendering of a `ZodError`:
`Invalid arguments: <path>: <message>, ...`. -/
def invalidArgumentsMessage (issues : List Issue) : String :=
  "Invalid arguments: " ++
    String.intercalate ", " (issues.map (fun i => i.path ++ ": " ++ i.message))

/-- The key+value projection the stdio list-secrets branch applies to each
remote secret record. -/
def reduceSecret (s : RemoteSecret) : JValue :=
  .jobj [("secretKey", .jstr s.secretKey), ("secretValue", .jstr s.secretValue)]

/-- The response object the stdio list-secrets branch serializes: reduced
secrets, plus — when the remote response carries imports — the import
entries with their own secrets reduced (import metadata kept). -/
def listSecretsPayload (r : ListSecretsResponse) : JValue :=
  .jobj (("secrets", JValue.jarr (r.secrets.map reduceSecret)) ::
    (match r.imports with
     | some imps =>
         [("imports", JValue.jarr (imps.map (fun imp =>
            JValue.jobj (imp.meta ++
              [("secrets", JValue.jarr (imp.secrets.map reduceSecret))]))))]
     | none => []))

/-- Stdio dispatch, branch `CreateSecret`. -/
def handleCreateSecret (api : RemoteApi) (args : JObj) :
    Except BodyError ToolResult × List RemoteCall :=
  Http.withParsed BodyError.zodError createSecretSchema.zod args (fun d =>
    (.ok (textResult ("Secret created successfully: " ++
        stringifyDisplay (jField api.createSecretResponse "secret"))),
     [.createSecret (getStr d "secretName")
        [("environment", some (.jstr (getStr d "environmentSlug"))),
         ("projectId", some (.jstr (getStr d "projectId"))),
         ("secretPath", some (.jstr (getStr d "secretPath"))),
         ("secretValue", some (.jstr ((getStrOpt d "secretValue").getD "")))]]))

/-- Stdio dispatch, branch `DeleteSecret` (the destructured `secret` of the
response is read; a missing field renders as `undefined`). -/
def handleDeleteSecret (api : RemoteApi) (args : JObj) :
    Except BodyError ToolResult × List RemoteCall :=
  Http.withParsed BodyError.zodError deleteSecretSchema.zod args (fun d =>
    (.ok (textResult ("Secret deleted successfully: " ++
        jDisplay ((jField api.deleteSecretResponse "secret").bind
          (fun s => jField s "secretKey")))),
     [.deleteSecret (getStr d "secretName")
        [("environment", some (.jstr (getStr d "environmentSlug"))),
         ("projectId", some (.jstr (getStr d "projectId"))),
         ("secretPath", some (.jstr (getStr d "secretPath")))]]))

/-- Stdio dispatch, branch `UpdateSecret` (`newSecretName` is validated but
not forwarded to the SDK call). -/
def handleUpdateSecret (api : RemoteApi) (args : JObj) :
    Except BodyError ToolResult × List RemoteCall :=
  Http.withParsed BodyError.zodError updateSecretSchema.zod args (fun d =>
    (.ok (textResult ("Secret updated successfully. Updated secret: " ++
        stringifyDisplay (jField api.updateSecretResponse "secret"))),
     [.updateSecret (getStr d "secretName")
        [("environment", some (.jstr (getStr d "environmentSlug"))),
         ("projectId", some (.jstr (getStr d "projectId"))),
         ("secretPath", some (.jstr (getStr d "secretPath"))),
         ("secretValue", some (.jstr ((getStrOpt d "secretValue").getD "")))]]))

/-- Stdio dispatch, branch `ListSecrets`: serializes the reduced payload
compactly. -/
def handleListSecrets (api : RemoteApi) (args : JObj) :
    Except BodyError ToolResult × List RemoteCall :=
  Http.withParsed BodyError.zodError listSecretsSchema.zod args (fun d =>
    (.ok (textResult (stringifyCompact (listSecretsPayload api.listSecretsResponse))),
     [.listSecrets
        [("environment", some (.jstr (getStr d "environmentSlug"))),
         ("projectId", some (.jstr (getStr d "projectId"))),
         ("secretPath", some (.jstr (getStr d "secretPath"))),
         ("expandSecretReferences", some (.jbool (getBool d "expandSecretReferences"))),
         ("includeImports", some (.jbool (getBool d "includeImports")))]]))

/-- Stdio dispatch, branch `GetSecret`: delegates to the SDK's dedicated
`getSecret` operation. -/
def handleGetSecret (api : RemoteApi) (args : JObj) :
    Except BodyError ToolResult × List RemoteCall :=
  Http.withParsed BodyError.zodError getSecretSchema.zod args (fun d =>
    (.ok (textResult ("Secret retrieved successfully: " ++
        stringifyPretty api.getSecretResponse)),
     [.getSecret
        [("environment", some (.jstr (getStr d "environmentSlug"))),
         ("projectId", some (.jstr (getStr d "projectId"))),
         ("secretName", some (.jstr (getStr d "secretName"))),
         ("secretPath", some (.jstr (getStr d "secretPath"))),
         ("expandSecretReferences", some (.jbool (getBool d "expandSecretReferences"))),
         ("includeImports", some (.jbool (getBool d "includeImports")))]]))

/-- Stdio dispatch, branch `CreateProject`. -/
def handleCreateProject (api : RemoteApi) (args : JObj) :
    Except BodyError ToolResult × List RemoteCall :=
  Http.withParsed BodyError.zodError createProjectSchema.zod args (fun d =>
    (.ok (textResult ("Project created successfully: " ++
        stringifyPretty api.createProjectResponse)),
     [.createProject
        [("projectName", some (.jstr (getStr d "projectName"))),
         ("projectDescription", (getStrOpt d "description").map JValue.jstr),
         ("kmsKeyId", (getStrOpt d "kmsKeyId").map JValue.jstr),
         ("slug", (getStrOpt d "slug").map JValue.jstr),
         ("template", (getStrOpt d "projectTemplate").map JValue.jstr),
         ("type", some (.jstr (getStr d "type")))]]))

/-- Stdio dispatch, branch `CreateEnvironment`. -/
def handleCreateEnvironment (api : RemoteApi) (args : JObj) :
    Except BodyError ToolResult × List RemoteCall :=
  Http.withParsed BodyError.zodError createEnvironmentSchema.zod args (fun d =>
    (.ok (textResult ("Environment created successfully: " ++
        stringifyPretty api.createEnvironmentResponse)),
     [.createEnvironment
        [("projectId", some (.jstr (getStr d "projectId"))),
         ("name", some (.jstr (getStr d "name"))),
         ("slug", some (.jstr (getStr d "slug"))),
         ("position", (getNumOpt d "position").map JValue.jnum)]]))

/-- Stdio dispatch, branch `CreateFolder`: fully wired to
`folders().create`. -/
def handleCreateFolder (api : RemoteApi) (args : JObj) :
    Except BodyError ToolResult × List RemoteCall :=
  Http.withParsed BodyError.zodError createFolderSchema.zod args (fun d =>
    (.ok (textResult ("Folder created successfully: " ++
        stringifyPretty api.createFolderResponse)),
     [.createFolder
        [("description", (getStrOpt d "description").map JValue.jstr),
         ("environment", some (.jstr (getStr d "environment"))),
         ("name", some (.jstr (getStr d "name"))),
         ("path", some (.jstr (getStr d "path"))),
         ("projectId", some (.jstr (getStr d "projectId")))]]))

/-- Stdio dispatch, branch `InviteMembersToProject`: fully wired to
`projects().inviteMembers`. -/
def handleInviteMembers (api : RemoteApi) (args : JObj) :
    Except BodyError ToolResult × List RemoteCall :=
  Http.withParsed BodyError.zodError inviteMembersToProjectSchema.zod args (fun d =>
    (.ok (textResult ("Members successfully invited to project: " ++
        stringifyPretty api.inviteMembersResponse)),
     [.inviteMembers
        [("projectId", some (.jstr (getStr d "projectId"))),
         ("emails", (getStrArrOpt d "emails").map (fun l => .jarr (l.map JValue.jstr))),
         ("usernames", (getStrArrOpt d "usernames").map (fun l => .jarr (l.map JValue.jstr))),
         ("roleSlugs", (getStrArrOpt d "roleSlugs").map (fun l => .jarr (l.map JValue.jstr)))]]))

/-- The `CallToolRequestSchema` handler's if-chain over the tool name,
after authentication and before the catch block. -/
def callToolBody (api : RemoteApi) (name : String) (args : JObj) :
    Except BodyError ToolResult × List RemoteCall :=
  if name = "create-secret" then handleCreateSecret api args
  else if name = "delete-secret" then handleDeleteSecret api args
  else if name = "update-secret" then handleUpdateSecret api args
  else if name = "list-secrets" then handleListSecrets api args
  else if name = "get-secret" then handleGetSecret api args
  else if name = "create-project" then handleCreateProject api args
  else if name = "create-environment" then handleCreateEnvironment api args
  else if name = "create-folder" then handleCreateFolder api args
  else if name = "invite-members-to-project" then handleInviteMembers api args
  else (.error (.unrecognizedTool name), [])

/-- The catch block: a `ZodError` is rewrapped into the
`Invalid arguments: ...` message; other errors are rethrown unchanged. -/
def wrapBodyError : Except BodyError ToolResult → Except StdioError ToolResult
  | .ok r => .ok r
  | .error (.zodError issues) => .error (.invalidArguments (invalidArgumentsMessage issues))
  | .error (.unrecognizedTool n) => .error (.unrecognizedTool n)

/-- The `CallToolRequestSchema` handler: `handleAuthentication()` first
(a no-op when `isAuthenticated` is already set, otherwise the credential
exchange, setting the flag on success), then the dispatch, then the catch
block. Returns the result, the flag after the call, and the remote calls
performed. -/
def callToolHandler (api : RemoteApi) (isAuthenticated : Bool) (name : String)
    (args : JObj) : Except StdioError ToolResult × Bool × List RemoteCall :=
  if isAuthenticated then
    let r := callToolBody api name args
    (wrapBodyError r.1, true, r.2)
  else if api.authOk then
    let r := callToolBody api name args
    (wrapBodyError r.1, true, .authLogin :: r.2)
  else
    (.error (.authError api.authErrorMessage), false, [.authLogin])

/-- `let isAuthenticated = false`: the flag at process start. -/
def initialIsAuthenticated : Bool := false

/-- A sequence of tool calls in one stdio process: threads the
`isAuthenticated` flag through and concatenates the remote-call traces. -/
def runCalls (api : RemoteApi) : Bool → List (String × JObj) → Bool × List RemoteCall
  | st, [] => (st, [])
  | st, (n, a) :: rest =>
      let step := callToolHandler api st n a
      let next := runCalls api step.2.1 rest
      (next.1, step.2.2 ++ next.2)

/-- The tool-name → zod-schema table of the stdio dispatch. -/
def toolSchemas : List (String × Schema) :=
  [("create-secret", createSecretSchema.zod), ("delete-secret", deleteSecretSchema.zod),
   ("update-secret", updateSecretSchema.zod), ("list-secrets", listSecretsSchema.zod),
   ("get-secret", getSecretSchema.zod), ("create-project", createProjectSchema.zod),
   ("create-environment", createEnvironmentSchema.zod),
   ("create-folder", createFolderSchema.zod),
   ("invite-members-to-project", inviteMembersToProjectSchema.zod)]

end Stdio

/-! ## General lemmas about field lookup and schema validation -/

theorem lookupField_append_of_none {a1 : JObj} {k : String}
    (h : lookupField a1 k = none) (a2 : JObj) :
    lookupField (a1 ++ a2) k = lookupField a2 k := by
  unfold lookupField at h ⊢
  rw [List.find?_append]
  cases hf : a1.find? (fun p => p.1 == k) with
  | none => rfl
  | some w => rw [hf] at h; simp at h

theorem lookupField_append_of_some {a1 : JObj} {k : String} {v : JValue}
    (h : lookupField a1 k = some v) (a2 : JObj) :
    lookupField (a1 ++ a2) k = some v := by
  unfold lookupField at h ⊢
  rw [List.find?_append]
  cases hf : a1.find? (fun p => p.1 == k) with
  | none => rw [hf] at h; simp at h
  | some w =>
      rw [hf] at h
      simp at h ⊢
      exact h

theorem lookupField_single (k2 k : String) (v : JValue) :
    lookupField [(k2, v)] k = if k2 = k then some v else none := by
  by_cases h : k2 = k
  · simp [lookupField, List.find?, h]
  · have hb : (k2 == k) = false := by
      simp [h]
    simp [lookupField, List.find?, hb, h]

/-- Appending a `secretPath` field leaves validation of every other field
unchanged. -/
theorem parseField_append_secretPath {n : String} (hn : n ≠ "secretPath")
    (spec : FieldSpec) (args : JObj) (v : JValue) :
    parseField n spec (args ++ [("secretPath", v)]) = parseField n spec args := by
  unfold parseField
  rcases h : lookupField args n with _ | w
  · rw [lookupField_append_of_none h, lookupField_single,
      if_neg (fun hh => hn hh.symm)]
  · rw [lookupField_append_of_some h]

/-- Validating the defaulted `secretPath` field with the field absent gives
the same outcome as validating it with the explicit value `"/"` appended. -/
theorem parseField_secretPath_default {args : JObj}
    (h : lookupField args "secretPath" = none) :
    parseField "secretPath" slashDefault (args ++ [("secretPath", .jstr "/")]) =
      parseField "secretPath" slashDefault args := by
  unfold parseField
  rw [h, lookupField_append_of_none h, lookupField_single, if_pos rfl]
  rfl

/-- For a schema whose only `secretPath` field (if any) is
`z.string().default("/")`, parsing arguments without a `secretPath` key
equals parsing them with `secretPath: "/"` appended. -/
theorem parseObject_secretPath_ext {s : Schema}
    (hs : ∀ p ∈ s, p.1 = "secretPath" → p.2 = slashDefault) {args : JObj}
    (h : lookupField args "secretPath" = none) :
    parseObject s (args ++ [("secretPath", .jstr "/")]) = parseObject s args := by
  have key : ∀ p ∈ s,
      parseField p.1 p.2 (args ++ [("secretPath", .jstr "/")]) =
        parseField p.1 p.2 args := by
    intro p hp
    by_cases hn : p.1 = "secretPath"
    · rw [hn, hs p hp hn]
      exact parseField_secretPath_default h
    · exact parseField_append_secretPath hn p.2 args _
  have h1 : parseIssues s (args ++ [("secretPath", .jstr "/")]) = parseIssues s args := by
    unfold parseIssues
    exact List.filterMap_congr (fun p hp => by rw [key p hp])
  have h2 : parseValues s (args ++ [("secretPath", .jstr "/")]) = parseValues s args := by
    unfold parseValues
    exact List.filterMap_congr (fun p hp => by rw [key p hp])
  unfold parseObject
  rw [h1, h2]

/-- A required schema field missing from the arguments contributes a
`Required` issue at its own path. -/
theorem required_missing_issue {s : Schema} {f : String} {spec : FieldSpec}
    (hmem : (f, spec) ∈ s) (hreq : spec.presence = Presence.required)
    {args : JObj} (h : lookupField args f = none) :
    Issue.mk f "Required" ∈ parseIssues s args := by
  apply List.mem_filterMap.mpr
  refine ⟨(f, spec), hmem, ?_⟩
  show (match parseField f spec args with
    | .error e => some e
    | .ok _ => none) = some ⟨f, "Required"⟩
  unfold parseField
  rw [h, hreq]

/-- Parsing arguments that miss a required field fails with the collected
issues, among them the `Required` issue naming that field. -/
theorem parseObject_error_of_missing {s : Schema} {f : String} {spec : FieldSpec}
    (hmem : (f, spec) ∈ s) (hreq : spec.presence = Presence.required)
    {args : JObj} (h : lookupField args f = none) :
    parseObject s args = .error (parseIssues s args) ∧
      Issue.mk f "Required" ∈ parseIssues s args := by
  have hm := required_missing_issue hmem hreq h
  refine ⟨?_, hm⟩
  unfold parseObject
  rw [if_neg]
  intro he
  rw [List.isEmpty_iff] at he
  rw [he] at hm
  exact absurd hm (List.not_mem_nil _)

theorem withParsed_error {ε : Type} (w : List Issue → ε) {s : Schema} {args : JObj}
    {is : List Issue} (h : parseObject s args = .error is)
    (k : JObj → Except ε ToolResult × List RemoteCall) :
    Http.withParsed w s args k = (.error (w is), []) := by
  unfold Http.withParsed
  rw [h]

theorem withParsed_ok {ε : Type} (w : List Issue → ε) {s : Schema} {args : JObj}
    {d : JObj} (h : parseObject s args = .ok d)
    (k : JObj → Except ε ToolResult × List RemoteCall) :
    Http.withParsed w s args k = k d := by
  unfold Http.withParsed
  rw [h]

theorem withParsed_args_congr {ε : Type} (w : List Issue → ε) {s : Schema}
    {a1 a2 : JObj} (h : parseObject s a1 = parseObject s a2)
    (k : JObj → Except ε ToolResult × List RemoteCall) :
    Http.withParsed w s a1 k = Http.withParsed w s a2 k := by
  unfold Http.withParsed
  rw [h]

/-- Whether a field spec is exactly `z.string().default("/")`. -/
def fieldSpecIsSlashDefault : FieldSpec → Bool
  | ⟨FieldType.fstring, Presence.withDefault (JValue.jstr s)⟩ => s == "/"
  | _ => false

theorem fieldSpecIsSlashDefault_eq {spec : FieldSpec}
    (h : fieldSpecIsSlashDefault spec = true) : spec = slashDefault := by
  unfold fieldSpecIsSlashDefault at h
  split at h
  · rename_i s
    simp at h
    rw [h]
    rfl
  · simp at h

/-- Whether every `secretPath` field of a schema (if any) is
`z.string().default("/")`; holds for all schemas of both variants. -/
def schemaSecretPathOk (s : Schema) : Bool :=
  s.all (fun p => p.1 != "secretPath" || fieldSpecIsSlashDefault p.2)

theorem secretPath_spec_of_ok {s : Schema} (h : schemaSecretPathOk s = true) :
    ∀ p ∈ s, p.1 = "secretPath" → p.2 = slashDefault := by
  intro p hp hn
  have hall := (List.all_eq_true.mp h) p hp
  rw [hn] at hall
  simp at hall
  exact fieldSpecIsSlashDefault_eq hall

/-- No branch of the stdio dispatch ever performs the credential exchange
itself (only `handleAuthentication` does). -/
theorem callToolBody_no_login (api : RemoteApi) (name : String) (args : JObj) :
    RemoteCall.authLogin ∉ (Stdio.callToolBody api name args).2 := by
  intro hc
  unfold Stdio.callToolBody at hc
  split_ifs at hc <;>
    first
    | simp at hc
    | (simp only [Stdio.handleCreateSecret, Stdio.handleDeleteSecret,
        Stdio.handleUpdateSecret, Stdio.handleListSecrets, Stdio.handleGetSecret,
        Stdio.handleCreateProject, Stdio.handleCreateEnvironment,
        Stdio.handleCreateFolder, Stdio.handleInviteMembers,
        Http.withParsed] at hc
       split at hc <;> simp_all)

/-- A tool name outside the HTTP dispatch table hits the default case. -/
theorem handleToolCall_unknown (api : RemoteApi) (name : String) (args : JObj)
    (h1 : name ≠ "create-secret") (h2 : name ≠ "delete-secret")
    (h3 : name ≠ "update-secret") (h4 : name ≠ "list-secrets")
    (h5 : name ≠ "get-secret") (h6 : name ≠ "create-project")
    (h7 : name ≠ "list-projects") (h8 : name ≠ "create-environment")
    (h9 : name ≠ "create-folder") (h10 : name ≠ "invite-members-to-project") :
    Http.handleToolCall api name args = (.error (.unknownTool name), []) := by
  unfold Http.handleToolCall
  rw [if_neg h1, if_neg h2, if_neg h3, if_neg h4, if_neg h5, if_neg h6, if_neg h7,
    if_neg h8, if_neg h9, if_neg h10]

/-- A tool name outside the stdio dispatch table hits the final throw. -/
theorem callToolBody_unknown (api : RemoteApi) (name : String) (args : JObj)
    (h1 : name ≠ "create-secret") (h2 : name ≠ "delete-secret")
    (h3 : name ≠ "update-secret") (h4 : name ≠ "list-secrets")
    (h5 : name ≠ "get-secret") (h6 : name ≠ "create-project")
    (h7 : name ≠ "create-environment") (h8 : name ≠ "create-folder")
    (h9 : name ≠ "invite-members-to-project") :
    Stdio.callToolBody api name args = (.error (.unrecognizedTool name), []) := by
  unfold Stdio.callToolBody
  rw [if_neg h1, if_neg h2, if_neg h3, if_neg h4, if_neg h5, if_neg h6, if_neg h7,
    if_neg h8, if_neg h9]

/-- The stdio handler when the flag is already set: no credential exchange,
just the dispatch and the catch block. -/
theorem stdio_handler_auth_true (api : RemoteApi) (name : String) (args : JObj) :
    Stdio.callToolHandler api true name args =
      (Stdio.wrapBodyError (Stdio.callToolBody api name args).1, true,
       (Stdio.callToolBody api name args).2) := rfl

/-- The stdio handler on the first call when the credential exchange
succeeds: the login happens before the dispatch and the flag is set. -/
theorem stdio_handler_auth_false (api : RemoteApi) (name : String) (args : JObj)
    (hauth : api.authOk = true) :
    Stdio.callToolHandler api false name args =
      (Stdio.wrapBodyError (Stdio.callToolBody api name args).1, true,
       .authLogin :: (Stdio.callToolBody api name args).2) := by
  unfold Stdio.callToolHandler
  rw [if_neg (by simp), if_pos hauth]

/-- A failed `schema.parse` aborts the matching HTTP dispatch case with the
thrown `ZodError` and an empty call trace. -/
theorem handleToolCall_parse_error {name : String} {s : Schema}
    (hmem : (name, s) ∈ Http.toolSchemas) (api : RemoteApi) (args : JObj)
    {is : List Issue} (hp : parseObject s args = .error is) :
    Http.handleToolCall api name args = (.error (.zodError is), []) := by
  simp only [Http.toolSchemas, List.mem_cons, List.not_mem_nil, or_false,
    Prod.mk.injEq] at hmem
  rcases hmem with ⟨rfl, rfl⟩ | hmem
  · show Http.handleCreateSecret api args = _
    unfold Http.handleCreateSecret
    exact withParsed_error _ hp _
  rcases hmem with ⟨rfl, rfl⟩ | hmem
  · show Http.handleDeleteSecret api args = _
    unfold Http.handleDeleteSecret
    exact withParsed_error _ hp _
  rcases hmem with ⟨rfl, rfl⟩ | hmem
  · show Http.handleUpdateSecret api args = _
    unfold Http.handleUpdateSecret
    exact withParsed_error _ hp _
  rcases hmem with ⟨rfl, rfl⟩ | hmem
  · show Http.handleListSecrets api args = _
    unfold Http.handleListSecrets
    exact withParsed_error _ hp _
  rcases hmem with ⟨rfl, rfl⟩ | hmem
  · show Http.handleGetSecret api args = _
    unfold Http.handleGetSecret
    exact withParsed_error _ hp _
  rcases hmem with ⟨rfl, rfl⟩ | hmem
  · show Http.handleCreateProject api args = _
    unfold Http.handleCreateProject
    exact withParsed_error _ hp _
  rcases hmem with ⟨rfl, rfl⟩ | hmem
  · show Http.handleCreateEnvironment api args = _
    unfold Http.handleCreateEnvironment
    exact withParsed_error _ hp _
  rcases hmem with ⟨rfl, rfl⟩ | ⟨rfl, rfl⟩
  · show Http.handleCreateFolder args = _
    unfold Http.handleCreateFolder
    exact withParsed_error _ hp _
  · show Http.handleInviteMembers args = _
    unfold Http.handleInviteMembers
    exact withParsed_error _ hp _

/-- A failed `schema.parse` aborts the matching stdio dispatch case with the
thrown `ZodError` and an empty call trace. -/
theorem callToolBody_parse_error {name : String} {s : Schema}
    (hmem : (name, s) ∈ Stdio.toolSchemas) (api : RemoteApi) (args : JObj)
    {is : List Issue} (hp : parseObject s args = .error is) :
    Stdio.callToolBody api name args = (.error (.zodError is), []) := by
  simp only [Stdio.toolSchemas, List.mem_cons, List.not_mem_nil, or_false,
    Prod.mk.injEq] at hmem
  rcases hmem with ⟨rfl, rfl⟩ | hmem
  · show Stdio.handleCreateSecret api args = _
    unfold Stdio.handleCreateSecret
    exact withParsed_error _ hp _
  rcases hmem with ⟨rfl, rfl⟩ | hmem
  · show Stdio.handleDeleteSecret api args = _
    unfold Stdio.handleDeleteSecret
    exact withParsed_error _ hp _
  rcases hmem with ⟨rfl, rfl⟩ | hmem
  · show Stdio.handleUpdateSecret api args = _
    unfold Stdio.handleUpdateSecret
    exact withParsed_error _ hp _
  rcases hmem with ⟨rfl, rfl⟩ | hmem
  · show Stdio.handleListSecrets api args = _
    unfold Stdio.handleListSecrets
    exact withParsed_error _ hp _
  rcases hmem with ⟨rfl, rfl⟩ | hmem
  · show Stdio.handleGetSecret api args = _
    unfold Stdio.handleGetSecret
    exact withParsed_error _ hp _
  rcases hmem with ⟨rfl, rfl⟩ | hmem
  · show Stdio.handleCreateProject api args = _
    unfold Stdio.handleCreateProject
    exact withParsed_error _ hp _
  rcases hmem with ⟨rfl, rfl⟩ | hmem
  · show Stdio.handleCreateEnvironment api args = _
    unfold Stdio.handleCreateEnvironment
    exact withParsed_error _ hp _
  rcases hmem with ⟨rfl, rfl⟩ | ⟨rfl, rfl⟩
  · show Stdio.handleCreateFolder api args = _
    unfold Stdio.handleCreateFolder
    exact withParsed_error _ hp _
  · show Stdio.handleInviteMembers api args = _
    unfold Stdio.handleInviteMembers
    exact withParsed_error _ hp _

/-! ## Concrete fixtures for witnesses and counterexamples -/

/-- A concrete remote oracle: the credential exchange succeeds, and the
listing holds one secret `A` (value `1`) carrying an extra `id` metadata
field. -/
def sampleApi : RemoteApi :=
  ⟨true, "connection refused",
   .jobj [("secret", .jobj [("secretKey", .jstr "A")])],
   .jobj [("secret", .jobj [("secretKey", .jstr "A")])],
   .jobj [("secret", .jobj [("secretKey", .jstr "A")])],
   ⟨[⟨"A", "1", [("id", .jstr "xyz")]⟩], none⟩,
   .jobj [("secretKey", .jstr "A")],
   .jobj [("id", .jstr "proj1")],
   .jarr [],
   .jobj [("id", .jstr "env1")],
   .jobj [("id", .jstr "folder1")],
   .jarr []⟩

/-! ## Claim C4 -/

/-- C4: every `tools/list` request, in either variant, returns the same
nine-entry catalog in the same fixed declaration order, independently of the
remote oracle, the authentication state, and any preceding requests (both
handlers are pure functions of their inputs and ignore everything but the
method). -/
theorem c4_tools_list_constant_catalog :
    (∀ (api : RemoteApi) (id : Option JValue) (params : Option Http.CallParams),
      Http.handleJsonRpcRequest api ⟨id, some "tools/list", params⟩ =
        .json 200 (.jobj ([("jsonrpc", .jstr "2.0"),
          ("result", .jobj [("tools", .jarr (Http.tools.map ToolDef.toJson))])] ++
          Http.idField id))) ∧
    Http.tools.map (fun t => t.name) =
      ["create-secret", "delete-secret", "list-secrets", "get-secret",
       "create-project", "list-projects", "create-environment", "create-folder",
       "invite-members-to-project"] ∧
    Http.tools.length = 9 ∧
    (∀ st : Bool, Stdio.listTools st = Stdio.listTools Stdio.initialIsAuthenticated) ∧
    (Stdio.listTools Stdio.initialIsAuthenticated).map (fun t => t.name) =
      ["create-secret", "delete-secret", "update-secret", "list-secrets",
       "get-secret", "create-project", "create-environment", "create-folder",
       "invite-members-to-project"] ∧
    (Stdio.listTools Stdio.initialIsAuthenticated).length = 9 :=
  ⟨fun _ _ _ => rfl, rfl, rfl, fun _ => rfl, rfl, rfl⟩

/-! ## Claim C10 -/

/-- C10: the HTTP variant fully executes `tools/call` for `update-secret`
(validating against `updateSecretSchema` and invoking the remote update
after the credential exchange), yet `update-secret` appears neither in the
`tools` catalog served by `tools/list` nor in the `GET /mcp` discovery
tool-name list. -/
theorem c10_update_secret_callable_not_discoverable (api : RemoteApi)
    (args d : JObj) (hp : parseObject Http.updateSecretSchema args = .ok d)
    (ha : api.authOk = true) :
    Http.handleToolCall api "update-secret" args =
      (.ok (textResult ("Secret updated successfully: " ++
        stringifyPretty api.updateSecretResponse)),
       [.authLogin, .updateSecret (getStr d "secretName")
          [("environment", some (.jstr (getStr d "environmentSlug"))),
           ("projectId", some (.jstr (getStr d "projectId"))),
           ("secretPath", some (.jstr (getStr d "secretPath"))),
           ("secretValue", some (.jstr ((getStrOpt d "secretValue").getD "")))]]) ∧
    "update-secret" ∉ Http.tools.map (fun t => t.name) ∧
    "update-secret" ∉ Http.mcpDiscoveryToolNames := by
  refine ⟨?_, by decide, by decide⟩
  have h1 : Http.handleToolCall api "update-secret" args =
      Http.handleUpdateSecret api args := rfl
  rw [h1]
  unfold Http.handleUpdateSecret
  rw [withParsed_ok _ hp]
  unfold Http.withAuth
  rw [if_pos ha]

/-- C10 witness: a concrete `update-secret` call that validates, exchanges
credentials, and invokes the remote update. -/
theorem c10_witness :
    Http.handleToolCall sampleApi "update-secret"
      [("projectId", .jstr "p"), ("environmentSlug", .jstr "e"),
       ("secretName", .jstr "n")] =
      (.ok (textResult ("Secret updated successfully: " ++
        stringifyPretty sampleApi.updateSecretResponse)),
       [.authLogin, .updateSecret "n"
          [("environment", some (.jstr "e")), ("projectId", some (.jstr "p")),
           ("secretPath", some (.jstr "/")), ("secretValue", some (.jstr ""))]]) ∧
    "update-secret" ∉ Http.tools.map (fun t => t.name) ∧
    "update-secret" ∉ Http.mcpDiscoveryToolNames :=
  c10_update_secret_callable_not_discoverable sampleApi
    [("projectId", .jstr "p"), ("environmentSlug", .jstr "e"), ("secretName", .jstr "n")]
    [("projectId", .jstr "p"), ("environmentSlug", .jstr "e"), ("secretName", .jstr "n"),
     ("secretPath", .jstr "/")]
    rfl rfl

/-! ## Claim C9 -/

/-- C9: in the HTTP variant, a `get-secret` call whose secret name matches no
record of the remote listing yields a successful tool result whose single
text block is `Secret not found: <name>` — not an error. -/
theorem c9_get_secret_miss_is_normal_result (api : RemoteApi) (args d : JObj)
    (hp : parseObject Http.getSecretSchema args = .ok d)
    (ha : api.authOk = true)
    (hfind : api.listSecretsResponse.secrets.find?
        (fun s => s.secretKey == getStr d "secretName") = none) :
    Http.handleToolCall api "get-secret" args =
      (.ok (textResult ("Secret not found: " ++ getStr d "secretName")),
       [.authLogin, .listSecrets
          [("environment", some (.jstr (getStr d "environmentSlug"))),
           ("projectId", some (.jstr (getStr d "projectId"))),
           ("secretPath", some (.jstr (getStr d "secretPath"))),
           ("expandSecretReferences",
            (getBoolOpt d "expandSecretReferences").map JValue.jbool),
           ("includeImports", (getBoolOpt d "includeImports").map JValue.jbool)]]) := by
  have h1 : Http.handleToolCall api "get-secret" args =
      Http.handleGetSecret api args := rfl
  rw [h1]
  unfold Http.handleGetSecret
  rw [withParsed_ok _ hp]
  unfold Http.withAuth
  rw [if_pos ha, hfind]

/-- C9 witness: requesting the absent secret `nope` against the sample
listing returns the not-found text result. -/
theorem c9_witness :
    Http.handleToolCall sampleApi "get-secret"
      [("projectId", .jstr "p"), ("environmentSlug", .jstr "e"),
       ("secretName", .jstr "nope")] =
      (.ok (textResult "Secret not found: nope"),
       [.authLogin, .listSecrets
          [("environment", some (.jstr "e")), ("projectId", some (.jstr "p")),
           ("secretPath", some (.jstr "/")), ("expandSecretReferences", none),
           ("includeImports", none)]]) :=
  c9_get_secret_miss_is_normal_result sampleApi
    [("projectId", .jstr "p"), ("environmentSlug", .jstr "e"), ("secretName", .jstr "nope")]
    [("projectId", .jstr "p"), ("environmentSlug", .jstr "e"), ("secretName", .jstr "nope"),
     ("secretPath", .jstr "/")]
    rfl rfl rfl

/-! ## Claim C8 -/

/-- C8: the stdio `isAuthenticated` flag starts `false` and is monotonic:
after any tool call the flag equals `st || authOk` (so it is set exactly when
it already was set or the credential exchange succeeded, and it is never
reset), and once it is `true`, no sequence of further tool calls ever
performs another credential exchange. -/
theorem c8_is_authenticated_monotonic :
    Stdio.initialIsAuthenticated = false ∧
    (∀ (api : RemoteApi) (st : Bool) (name : String) (args : JObj),
      (Stdio.callToolHandler api st name args).2.1 = (st || api.authOk)) ∧
    (∀ (api : RemoteApi) (steps : List (String × JObj)),
      RemoteCall.authLogin ∉ (Stdio.runCalls api true steps).2) := by
  refine ⟨rfl, ?_, ?_⟩
  · intro api st name args
    cases st with
    | true => rfl
    | false =>
        unfold Stdio.callToolHandler
        cases ha : api.authOk <;> simp [ha]
  · intro api steps
    induction steps with
    | nil => simp [Stdio.runCalls]
    | cons s rest ih =>
        obtain ⟨n, a⟩ := s
        simp only [Stdio.runCalls]
        have hstep : Stdio.callToolHandler api true n a =
            (Stdio.wrapBodyError (Stdio.callToolBody api n a).1, true,
             (Stdio.callToolBody api n a).2) := rfl
        rw [hstep]
        simp only [List.mem_append]
        push_neg
        exact ⟨callToolBody_no_login api n a, ih⟩

/-! ## Claim C3 -/

/-- C3: in the HTTP variant the tools `create-folder` and
`invite-members-to-project` validate their arguments and answer with a
placeholder text, performing no remote call at all (their call trace is
empty even when validation fails); in the stdio variant the same two tool
names validate and invoke `folders().create` respectively
`projects().inviteMembers` and serialize the remote response. -/
theorem c3_stubbed_in_http_full_in_stdio (api : RemoteApi) (args : JObj) :
    (Http.handleToolCall api "create-folder" args).2 = [] ∧
    (Http.handleToolCall api "invite-members-to-project" args).2 = [] ∧
    (∀ d, parseObject Http.createFolderSchema args = .ok d →
      (Http.handleToolCall api "create-folder" args).1 =
        .ok (textResult ("Folder creation request for path: " ++ getStr d "secretPath" ++
          ". Note: This functionality may need to be implemented based on your Infisical API version."))) ∧
    (∀ d, parseObject Http.inviteMembersToProjectSchema args = .ok d →
      (Http.handleToolCall api "invite-members-to-project" args).1 =
        .ok (textResult ("Member invitation request for project: " ++ getStr d "projectId" ++
          ", emails: " ++ String.intercalate ", " (getStrArr d "emails") ++
          ". Note: This functionality may need to be implemented based on your Infisical API version."))) ∧
    (∀ d, parseObject Stdio.createFolderSchema.zod args = .ok d →
      Stdio.callToolHandler api true "create-folder" args =
        (.ok (textResult ("Folder created successfully: " ++
            stringifyPretty api.createFolderResponse)), true,
         [.createFolder
            [("description", (getStrOpt d "description").map JValue.jstr),
             ("environment", some (.jstr (getStr d "environment"))),
             ("name", some (.jstr (getStr d "name"))),
             ("path", some (.jstr (getStr d "path"))),
             ("projectId", some (.jstr (getStr d "projectId")))]])) ∧
    (∀ d, parseObject Stdio.inviteMembersToProjectSchema.zod args = .ok d →
      Stdio.callToolHandler api true "invite-members-to-project" args =
        (.ok (textResult ("Members successfully invited to project: " ++
            stringifyPretty api.inviteMembersResponse)), true,
         [.inviteMembers
            [("projectId", some (.jstr (getStr d "projectId"))),
             ("emails", (getStrArrOpt d "emails").map (fun l => .jarr (l.map JValue.jstr))),
             ("usernames", (getStrArrOpt d "usernames").map (fun l => .jarr (l.map JValue.jstr))),
             ("roleSlugs", (getStrArrOpt d "roleSlugs").map (fun l => .jarr (l.map JValue.jstr)))]])) := by
  have hf : Http.handleToolCall api "create-folder" args = Http.handleCreateFolder args := rfl
  have hi : Http.handleToolCall api "invite-members-to-project" args =
      Http.handleInviteMembers args := rfl
  refine ⟨?_, ?_, ?_, ?_, ?_, ?_⟩
  · rw [hf]
    unfold Http.handleCreateFolder
    cases hp : parseObject Http.createFolderSchema args with
    | error is => rw [withParsed_error _ hp]
    | ok d => rw [withParsed_ok _ hp]
  · rw [hi]
    unfold Http.handleInviteMembers
    cases hp : parseObject Http.inviteMembersToProjectSchema args with
    | error is => rw [withParsed_error _ hp]
    | ok d => rw [withParsed_ok _ hp]
  · intro d hp
    rw [hf]
    unfold Http.handleCreateFolder
    rw [withParsed_ok _ hp]
  · intro d hp
    rw [hi]
    unfold Http.handleInviteMembers
    rw [withParsed_ok _ hp]
  · intro d hp
    have hb : Stdio.callToolBody api "create-folder" args =
        Stdio.handleCreateFolder api args := rfl
    show (Stdio.wrapBodyError (Stdio.callToolBody api "create-folder" args).1, true,
      (Stdio.callToolBody api "create-folder" args).2) = _
    rw [hb]
    unfold Stdio.handleCreateFolder
    rw [withParsed_ok _ hp]
    rfl
  · intro d hp
    have hb : Stdio.callToolBody api "invite-members-to-project" args =
        Stdio.handleInviteMembers api args := rfl
    show (Stdio.wrapBodyError (Stdio.callToolBody api "invite-members-to-project" args).1,
      true, (Stdio.callToolBody api "invite-members-to-project" args).2) = _
    rw [hb]
    unfold Stdio.handleInviteMembers
    rw [withParsed_ok _ hp]
    rfl

/-- C3 witness: concrete calls: the HTTP stubs answer placeholders with an
empty call trace; the stdio counterparts invoke the remote operations. -/
theorem c3_witness :
    (Http.handleToolCall sampleApi "create-folder"
      [("projectId", .jstr "p"), ("environmentSlug", .jstr "e")]).2 = [] ∧
    (Http.handleToolCall sampleApi "create-folder"
      [("projectId", .jstr "p"), ("environmentSlug", .jstr "e")]).1 =
      .ok (textResult ("Folder creation request for path: /" ++
        ". Note: This functionality may need to be implemented based on your Infisical API version.")) ∧
    (Http.handleToolCall sampleApi "invite-members-to-project"
      [("projectId", .jstr "p"), ("emails", .jarr [.jstr "a@b.c"])]).2 = [] ∧
    (Http.handleToolCall sampleApi "invite-members-to-project"
      [("projectId", .jstr "p"), ("emails", .jarr [.jstr "a@b.c"])]).1 =
      .ok (textResult ("Member invitation request for project: p, emails: a@b.c" ++
        ". Note: This functionality may need to be implemented based on your Infisical API version.")) ∧
    Stdio.callToolHandler sampleApi true "create-folder"
      [("environment", .jstr "e"), ("name", .jstr "f"), ("projectId", .jstr "p")] =
      (.ok (textResult ("Folder created successfully: " ++
          stringifyPretty sampleApi.createFolderResponse)), true,
       [.createFolder
          [("description", none), ("environment", some (.jstr "e")),
           ("name", some (.jstr "f")), ("path", some (.jstr "/")),
           ("projectId", some (.jstr "p"))]]) ∧
    Stdio.callToolHandler sampleApi true "invite-members-to-project"
      [("projectId", .jstr "p")] =
      (.ok (textResult ("Members successfully invited to project: " ++
          stringifyPretty sampleApi.inviteMembersResponse)), true,
       [.inviteMembers
          [("projectId", some (.jstr "p")), ("emails", none), ("usernames", none),
           ("roleSlugs", none)]]) :=
  ⟨(c3_stubbed_in_http_full_in_stdio sampleApi
      [("projectId", .jstr "p"), ("environmentSlug", .jstr "e")]).1,
   (c3_stubbed_in_http_full_in_stdio sampleApi
      [("projectId", .jstr "p"), ("environmentSlug", .jstr "e")]).2.2.1
     [("projectId", .jstr "p"), ("environmentSlug", .jstr "e"), ("secretPath", .jstr "/")]
     rfl,
   (c3_stubbed_in_http_full_in_stdio sampleApi
      [("projectId", .jstr "p"), ("emails", .jarr [.jstr "a@b.c"])]).2.1,
   (c3_stubbed_in_http_full_in_stdio sampleApi
      [("projectId", .jstr "p"), ("emails", .jarr [.jstr "a@b.c"])]).2.2.2.1
     [("projectId", .jstr "p"), ("emails", .jarr [.jstr "a@b.c"])] rfl,
   (c3_stubbed_in_http_full_in_stdio sampleApi
      [("environment", .jstr "e"), ("name", .jstr "f"), ("projectId", .jstr "p")]).2.2.2.2.1
     [("environment", .jstr "e"), ("name", .jstr "f"), ("path", .jstr "/"),
      ("projectId", .jstr "p")] rfl,
   (c3_stubbed_in_http_full_in_stdio sampleApi
      [("projectId", .jstr "p")]).2.2.2.2.2 [("projectId", .jstr "p")] rfl⟩

/-! ## Claim C6 -/

/-- C6: for every tool call in either variant, omitting `secretPath` from the
arguments is indistinguishable from passing `secretPath: "/"` explicitly —
the handlers (and hence the validated arguments and all downstream
remote-operation parameters) coincide. In particular this covers every tool
whose schema declares the `"/"` default for `secretPath`; tools without a
`secretPath` field ignore the extra key (zod strips unknown keys). -/
theorem c6_omitted_secret_path_equals_slash (args : JObj)
    (h : lookupField args "secretPath" = none) :
    (∀ (api : RemoteApi) (name : String),
      Http.handleToolCall api name (args ++ [("secretPath", JValue.jstr "/")]) =
        Http.handleToolCall api name args) ∧
    (∀ (api : RemoteApi) (st : Bool) (name : String),
      Stdio.callToolHandler api st name (args ++ [("secretPath", JValue.jstr "/")]) =
        Stdio.callToolHandler api st name args) := by
  have ext : ∀ s : Schema, schemaSecretPathOk s = true →
      parseObject s (args ++ [("secretPath", JValue.jstr "/")]) = parseObject s args :=
    fun s hok => parseObject_secretPath_ext (secretPath_spec_of_ok hok) h
  have hHttp : ∀ (api : RemoteApi) (name : String),
      Http.handleToolCall api name (args ++ [("secretPath", JValue.jstr "/")]) =
        Http.handleToolCall api name args := by
    intro api name
    rcases eq_or_ne name "create-secret" with rfl | hn1
    · show Http.handleCreateSecret api (args ++ [("secretPath", JValue.jstr "/")]) =
        Http.handleCreateSecret api args
      unfold Http.handleCreateSecret
      exact withParsed_args_congr _ (ext Http.createSecretSchema (by decide)) _
    rcases eq_or_ne name "delete-secret" with rfl | hn2
    · show Http.handleDeleteSecret api (args ++ [("secretPath", JValue.jstr "/")]) =
        Http.handleDeleteSecret api args
      unfold Http.handleDeleteSecret
      exact withParsed_args_congr _ (ext Http.deleteSecretSchema (by decide)) _
    rcases eq_or_ne name "update-secret" with rfl | hn3
    · show Http.handleUpdateSecret api (args ++ [("secretPath", JValue.jstr "/")]) =
        Http.handleUpdateSecret api args
      unfold Http.handleUpdateSecret
      exact withParsed_args_congr _ (ext Http.updateSecretSchema (by decide)) _
    rcases eq_or_ne name "list-secrets" with rfl | hn4
    · show Http.handleListSecrets api (args ++ [("secretPath", JValue.jstr "/")]) =
        Http.handleListSecrets api args
      unfold Http.handleListSecrets
      exact withParsed_args_congr _ (ext Http.listSecretsSchema (by decide)) _
    rcases eq_or_ne name "get-secret" with rfl | hn5
    · show Http.handleGetSecret api (args ++ [("secretPath", JValue.jstr "/")]) =
        Http.handleGetSecret api args
      unfold Http.handleGetSecret
      exact withParsed_args_congr _ (ext Http.getSecretSchema (by decide)) _
    rcases eq_or_ne name "create-project" with rfl | hn6
    · show Http.handleCreateProject api (args ++ [("secretPath", JValue.jstr "/")]) =
        Http.handleCreateProject api args
      unfold Http.handleCreateProject
      exact withParsed_args_congr _ (ext Http.createProjectSchema (by decide)) _
    rcases eq_or_ne name "list-projects" with rfl | hn7
    · rfl
    rcases eq_or_ne name "create-environment" with rfl | hn8
    · show Http.handleCreateEnvironment api (args ++ [("secretPath", JValue.jstr "/")]) =
        Http.handleCreateEnvironment api args
      unfold Http.handleCreateEnvironment
      exact withParsed_args_congr _ (ext Http.createEnvironmentSchema (by decide)) _
    rcases eq_or_ne name "create-folder" with rfl | hn9
    · show Http.handleCreateFolder (args ++ [("secretPath", JValue.jstr "/")]) =
        Http.handleCreateFolder args
      unfold Http.handleCreateFolder
      exact withParsed_args_congr _ (ext Http.createFolderSchema (by decide)) _
    rcases eq_or_ne name "invite-members-to-project" with rfl | hn10
    · show Http.handleInviteMembers (args ++ [("secretPath", JValue.jstr "/")]) =
        Http.handleInviteMembers args
      unfold Http.handleInviteMembers
      exact withParsed_args_congr _ (ext Http.inviteMembersToProjectSchema (by decide)) _
    rw [handleToolCall_unknown api name (args ++ [("secretPath", JValue.jstr "/")])
        hn1 hn2 hn3 hn4 hn5 hn6 hn7 hn8 hn9 hn10,
      handleToolCall_unknown api name args hn1 hn2 hn3 hn4 hn5 hn6 hn7 hn8 hn9 hn10]
  have hBody : ∀ (api : RemoteApi) (name : String),
      Stdio.callToolBody api name (args ++ [("secretPath", JValue.jstr "/")]) =
        Stdio.callToolBody api name args := by
    intro api name
    rcases eq_or_ne name "create-secret" with rfl | hn1
    · show Stdio.handleCreateSecret api (args ++ [("secretPath", JValue.jstr "/")]) =
        Stdio.handleCreateSecret api args
      unfold Stdio.handleCreateSecret
      exact withParsed_args_congr _ (ext Stdio.createSecretSchema.zod (by decide)) _
    rcases eq_or_ne name "delete-secret" with rfl | hn2
    · show Stdio.handleDeleteSecret api (args ++ [("secretPath", JValue.jstr "/")]) =
        Stdio.handleDeleteSecret api args
      unfold Stdio.handleDeleteSecret
      exact withParsed_args_congr _ (ext Stdio.deleteSecretSchema.zod (by decide)) _
    rcases eq_or_ne name "update-secret" with rfl | hn3
    · show Stdio.handleUpdateSecret api (args ++ [("secretPath", JValue.jstr "/")]) =
        Stdio.handleUpdateSecret api args
      unfold Stdio.handleUpdateSecret
      exact withParsed_args_congr _ (ext Stdio.updateSecretSchema.zod (by decide)) _
    rcases eq_or_ne name "list-secrets" with rfl | hn4
    · show Stdio.handleListSecrets api (args ++ [("secretPath", JValue.jstr "/")]) =
        Stdio.handleListSecrets api args
      unfold Stdio.handleListSecrets
      exact withParsed_args_congr _ (ext Stdio.listSecretsSchema.zod (by decide)) _
    rcases eq_or_ne name "get-secret" with rfl | hn5
    · show Stdio.handleGetSecret api (args ++ [("secretPath", JValue.jstr "/")]) =
        Stdio.handleGetSecret api args
      unfold Stdio.handleGetSecret
      exact withParsed_args_congr _ (ext Stdio.getSecretSchema.zod (by decide)) _
    rcases eq_or_ne name "create-project" with rfl | hn6
    · show Stdio.handleCreateProject api (args ++ [("secretPath", JValue.jstr "/")]) =
        Stdio.handleCreateProject api args
      unfold Stdio.handleCreateProject
      exact withParsed_args_congr _ (ext Stdio.createProjectSchema.zod (by decide)) _
    rcases eq_or_ne name "create-environment" with rfl | hn7
    · show Stdio.handleCreateEnvironment api (args ++ [("secretPath", JValue.jstr "/")]) =
        Stdio.handleCreateEnvironment api args
      unfold Stdio.handleCreateEnvironment
      exact withParsed_args_congr _ (ext Stdio.createEnvironmentSchema.zod (by decide)) _
    rcases eq_or_ne name "create-folder" with rfl | hn8
    · show Stdio.handleCreateFolder api (args ++ [("secretPath", JValue.jstr "/")]) =
        Stdio.handleCreateFolder api args
      unfold Stdio.handleCreateFolder
      exact withParsed_args_congr _ (ext Stdio.createFolderSchema.zod (by decide)) _
    rcases eq_or_ne name "invite-members-to-project" with rfl | hn9
    · show Stdio.handleInviteMembers api (args ++ [("secretPath", JValue.jstr "/")]) =
        Stdio.handleInviteMembers api args
      unfold Stdio.handleInviteMembers
      exact withParsed_args_congr _ (ext Stdio.inviteMembersToProjectSchema.zod (by decide)) _
    rw [callToolBody_unknown api name (args ++ [("secretPath", JValue.jstr "/")])
        hn1 hn2 hn3 hn4 hn5 hn6 hn7 hn8 hn9,
      callToolBody_unknown api name args hn1 hn2 hn3 hn4 hn5 hn6 hn7 hn8 hn9]
  refine ⟨hHttp, ?_⟩
  intro api st name
  cases st with
  | true =>
      show (Stdio.wrapBodyError
          (Stdio.callToolBody api name (args ++ [("secretPath", JValue.jstr "/")])).1, true,
        (Stdio.callToolBody api name (args ++ [("secretPath", JValue.jstr "/")])).2) =
        (Stdio.wrapBodyError (Stdio.callToolBody api name args).1, true,
          (Stdio.callToolBody api name args).2)
      rw [hBody api name]
  | false =>
      cases hauth : api.authOk with
      | true =>
          unfold Stdio.callToolHandler
          rw [if_neg (by simp), if_pos hauth, if_neg (by simp), if_pos hauth,
            hBody api name]
      | false =>
          unfold Stdio.callToolHandler
          rw [if_neg (by simp), if_neg (by simp [hauth]), if_neg (by simp),
            if_neg (by simp [hauth])]

/-- C6 witness: a concrete `create-secret` call without `secretPath` equals
the same call with `secretPath: "/"` appended, in both variants. -/
theorem c6_witness :
    Http.handleToolCall sampleApi "create-secret"
      ([("projectId", .jstr "p"), ("environmentSlug", .jstr "e"),
        ("secretName", .jstr "n")] ++ [("secretPath", .jstr "/")]) =
      Http.handleToolCall sampleApi "create-secret"
        [("projectId", .jstr "p"), ("environmentSlug", .jstr "e"),
         ("secretName", .jstr "n")] ∧
    Stdio.callToolHandler sampleApi false "create-secret"
      ([("projectId", .jstr "p"), ("environmentSlug", .jstr "e"),
        ("secretName", .jstr "n")] ++ [("secretPath", .jstr "/")]) =
      Stdio.callToolHandler sampleApi false "create-secret"
        [("projectId", .jstr "p"), ("environmentSlug", .jstr "e"),
         ("secretName", .jstr "n")] :=
  ⟨(c6_omitted_secret_path_equals_slash
      [("projectId", .jstr "p"), ("environmentSlug", .jstr "e"), ("secretName", .jstr "n")]
      rfl).1 sampleApi "create-secret",
   (c6_omitted_secret_path_equals_slash
      [("projectId", .jstr "p"), ("environmentSlug", .jstr "e"), ("secretName", .jstr "n")]
      rfl).2 sampleApi false "create-secret"⟩

/-! ## Claim C1 -/

/-- C1 counterexample: in the stdio variant the credential exchange runs
before validation, so a first `create-secret` call missing the required
`secretName` still performs the remote login (its call trace is exactly the
credential exchange), refuting the claim that no remote-API call is
performed for such a request. -/
theorem c1_counterexample :
    (Stdio.callToolHandler sampleApi false "create-secret"
        [("projectId", .jstr "p"), ("environmentSlug", .jstr "e")]).2.2 =
      [RemoteCall.authLogin] ∧
    (Stdio.callToolHandler sampleApi false "create-secret"
        [("projectId", .jstr "p"), ("environmentSlug", .jstr "e")]).1 =
      .error (.invalidArguments "Invalid arguments: secretName: Required") :=
  ⟨rfl, rfl⟩

/-- C1 (amended): a tool call missing a field its zod schema marks required
fails with a validation error whose issue list names that field; in the HTTP
variant no remote call at all is performed; in the stdio variant no
secret-management operation is performed either, but the credential exchange
precedes validation — it is skipped when the flag is already set and runs
(successfully, here) on a first call. -/
theorem c1_missing_required_rejected :
    (∀ (name : String) (s : Schema), (name, s) ∈ Http.toolSchemas →
      ∀ (f : String) (spec : FieldSpec), (f, spec) ∈ s →
        spec.presence = Presence.required →
      ∀ (api : RemoteApi) (args : JObj), lookupField args f = none →
        Http.handleToolCall api name args =
          (.error (.zodError (parseIssues s args)), []) ∧
        Issue.mk f "Required" ∈ parseIssues s args) ∧
    (∀ (name : String) (s : Schema), (name, s) ∈ Stdio.toolSchemas →
      ∀ (f : String) (spec : FieldSpec), (f, spec) ∈ s →
        spec.presence = Presence.required →
      ∀ (api : RemoteApi) (args : JObj), lookupField args f = none →
        Issue.mk f "Required" ∈ parseIssues s args ∧
        Stdio.callToolHandler api true name args =
          (.error (.invalidArguments (Stdio.invalidArgumentsMessage (parseIssues s args))),
           true, []) ∧
        (api.authOk = true →
          Stdio.callToolHandler api false name args =
            (.error (.invalidArguments (Stdio.invalidArgumentsMessage (parseIssues s args))),
             true, [.authLogin]))) := by
  constructor
  · intro name s hmem f spec hf hreq api args hlook
    obtain ⟨he, hm⟩ := parseObject_error_of_missing hf hreq hlook
    exact ⟨handleToolCall_parse_error hmem api args he, hm⟩
  · intro name s hmem f spec hf hreq api args hlook
    obtain ⟨he, hm⟩ := parseObject_error_of_missing hf hreq hlook
    have hb := callToolBody_parse_error hmem api args he
    refine ⟨hm, ?_, ?_⟩
    · rw [stdio_handler_auth_true, hb]
      rfl
    · intro hauth
      rw [stdio_handler_auth_false api name args hauth, hb]
      rfl

/-- C1 witness: a concrete `create-secret` call with empty arguments is
rejected in both variants with issues naming `secretName`; the stdio first
call performs exactly the credential exchange. -/
theorem c1_witness :
    (Http.handleToolCall sampleApi "create-secret" [] =
      (.error (.zodError (parseIssues Http.createSecretSchema [])), []) ∧
     Issue.mk "secretName" "Required" ∈ parseIssues Http.createSecretSchema []) ∧
    Issue.mk "secretName" "Required" ∈ parseIssues Stdio.createSecretSchema.zod [] ∧
    Stdio.callToolHandler sampleApi true "create-secret" [] =
      (.error (.invalidArguments (Stdio.invalidArgumentsMessage
        (parseIssues Stdio.createSecretSchema.zod []))), true, []) ∧
    Stdio.callToolHandler sampleApi false "create-secret" [] =
      (.error (.invalidArguments (Stdio.invalidArgumentsMessage
        (parseIssues Stdio.createSecretSchema.zod []))), true, [.authLogin]) := by
  have hhttp := c1_missing_required_rejected.1 "create-secret" Http.createSecretSchema
    (List.Mem.head _) "secretName" reqStr
    (List.Mem.tail _ (List.Mem.tail _ (List.Mem.head _))) rfl sampleApi [] rfl
  have hstdio := c1_missing_required_rejected.2 "create-secret" Stdio.createSecretSchema.zod
    (List.Mem.head _) "secretName" reqStr
    (List.Mem.tail _ (List.Mem.tail _ (List.Mem.head _))) rfl sampleApi [] rfl
  exact ⟨hhttp, hstdio.1, hstdio.2.1, hstdio.2.2 rfl⟩

/-! ## Claim C2 -/

/-- C2 counterexample: for a successful HTTP `list-secrets` call against a
listing whose record carries extra metadata, the single text block
serializes the full remote response, which differs from the serialization of
the key+value projection — refuting the claim that both variants reduce each
record before serializing. -/
theorem c2_counterexample :
    (Http.handleToolCall sampleApi "list-secrets"
        [("projectId", .jstr "p"), ("environmentSlug", .jstr "e")]).1 =
      .ok (textResult ("Secrets: " ++ stringifyPretty sampleApi.listSecretsResponse.toJson)) ∧
    stringifyPretty sampleApi.listSecretsResponse.toJson ≠
      stringifyPretty (Stdio.listSecretsPayload sampleApi.listSecretsResponse) :=
  ⟨rfl, by decide⟩

/-- C2 (amended): the key+value reduction happens only in the stdio variant:
its list-secrets branch serializes the reduced payload (whose projection of
each record is independent of the record's metadata), while the HTTP
variant's list-secrets branch serializes the full remote response object,
metadata included. -/
theorem c2_list_secrets_projection (api : RemoteApi) (args : JObj) :
    (∀ d, parseObject Stdio.listSecretsSchema.zod args = .ok d →
      (Stdio.callToolHandler api true "list-secrets" args).1 =
        .ok (textResult (stringifyCompact
          (Stdio.listSecretsPayload api.listSecretsResponse)))) ∧
    (∀ (s : RemoteSecret) (extra2 : List (String × JValue)),
      Stdio.reduceSecret ⟨s.secretKey, s.secretValue, extra2⟩ = Stdio.reduceSecret s) ∧
    (∀ d, parseObject Http.listSecretsSchema args = .ok d → api.authOk = true →
      (Http.handleToolCall api "list-secrets" args).1 =
        .ok (textResult ("Secrets: " ++
          stringifyPretty api.listSecretsResponse.toJson))) := by
  refine ⟨?_, fun s extra2 => rfl, ?_⟩
  · intro d hp
    rw [stdio_handler_auth_true]
    have hb : Stdio.callToolBody api "list-secrets" args =
        Stdio.handleListSecrets api args := rfl
    rw [hb]
    unfold Stdio.handleListSecrets
    rw [withParsed_ok _ hp]
    rfl
  · intro d hp hauth
    have h1 : Http.handleToolCall api "list-secrets" args =
        Http.handleListSecrets api args := rfl
    rw [h1]
    unfold Http.handleListSecrets
    rw [withParsed_ok _ hp]
    unfold Http.withAuth
    rw [if_pos hauth]

/-- C2 witness: concrete valid `list-secrets` calls showing the reduced
serialization in the stdio variant and the full serialization in the HTTP
variant. -/
theorem c2_witness :
    (Stdio.callToolHandler sampleApi true "list-secrets"
        [("projectId", .jstr "p"), ("environmentSlug", .jstr "e")]).1 =
      .ok (textResult (stringifyCompact
        (Stdio.listSecretsPayload sampleApi.listSecretsResponse))) ∧
    (Http.handleToolCall sampleApi "list-secrets"
        [("projectId", .jstr "p"), ("environmentSlug", .jstr "e")]).1 =
      .ok (textResult ("Secrets: " ++
        stringifyPretty sampleApi.listSecretsResponse.toJson)) :=
  ⟨(c2_list_secrets_projection sampleApi
      [("projectId", .jstr "p"), ("environmentSlug", .jstr "e")]).1
     [("projectId", .jstr "p"), ("environmentSlug", .jstr "e"), ("secretPath", .jstr "/"),
      ("expandSecretReferences", .jbool true), ("includeImports", .jbool true)] rfl,
   (c2_list_secrets_projection sampleApi
      [("projectId", .jstr "p"), ("environmentSlug", .jstr "e")]).2.2
     [("projectId", .jstr "p"), ("environmentSlug", .jstr "e"), ("secretPath", .jstr "/")]
     rfl rfl⟩

/-! ## Claim C5 -/

/-- C5 counterexample: in the stdio variant a `create-project` call whose
arguments are a string `projectName` alone is rejected — `type` is a
required enum there — and no remote operation is invoked, refuting the claim
that `projectName` alone validates and triggers project creation in both
variants. -/
theorem c5_counterexample :
    Stdio.callToolHandler sampleApi true "create-project"
        [("projectName", .jstr "my-project")] =
      (.error (.invalidArguments "Invalid arguments: type: Required"), true, []) :=
  rfl

/-- C5 (amended): in the HTTP variant `create-project` requires only
`projectName` — a string `projectName` alone validates and the remote
creation is invoked; in the stdio variant `type` (one of `secret-manager`,
`cert-manager`, `kms`, `ssh`) is also required, and with both fields
validation succeeds and the remote creation is invoked. -/
theorem c5_create_project_required_fields (api : RemoteApi) (pn : String) :
    (api.authOk = true →
      Http.handleToolCall api "create-project" [("projectName", .jstr pn)] =
        (.ok (textResult ("Project created successfully: " ++
            stringifyPretty api.createProjectResponse)),
         [.authLogin, .createProject
            [("name", some (.jstr pn)), ("workspaceSlug", none),
             ("organizationId", none)]])) ∧
    (∀ ty, ty ∈ (["secret-manager", "cert-manager", "kms", "ssh"] : List String) →
      Stdio.callToolHandler api true "create-project"
          [("projectName", .jstr pn), ("type", .jstr ty)] =
        (.ok (textResult ("Project created successfully: " ++
            stringifyPretty api.createProjectResponse)), true,
         [.createProject
            [("projectName", some (.jstr pn)), ("projectDescription", none),
             ("kmsKeyId", none), ("slug", none), ("template", none),
             ("type", some (.jstr ty))]])) := by
  constructor
  · intro hauth
    have h1 : Http.handleToolCall api "create-project" [("projectName", JValue.jstr pn)] =
        Http.handleCreateProject api [("projectName", JValue.jstr pn)] := rfl
    rw [h1]
    unfold Http.handleCreateProject
    rw [withParsed_ok _ (show parseObject Http.createProjectSchema
      [("projectName", JValue.jstr pn)] = .ok [("projectName", JValue.jstr pn)] from rfl)]
    unfold Http.withAuth
    rw [if_pos hauth]
    rfl
  · intro ty hty
    simp only [List.mem_cons, List.not_mem_nil, or_false] at hty
    rcases hty with rfl | rfl | rfl | rfl <;> rfl

/-- C5 witness: concrete `create-project` calls succeeding with only
`projectName` over HTTP, and with `projectName` plus `type` over stdio. -/
theorem c5_witness :
    Http.handleToolCall sampleApi "create-project"
      [("projectName", .jstr "my-project")] =
      (.ok (textResult ("Project created successfully: " ++
          stringifyPretty sampleApi.createProjectResponse)),
       [.authLogin, .createProject
          [("name", some (.jstr "my-project")), ("workspaceSlug", none),
           ("organizationId", none)]]) ∧
    Stdio.callToolHandler sampleApi true "create-project"
      [("projectName", .jstr "my-project"), ("type", .jstr "secret-manager")] =
      (.ok (textResult ("Project created successfully: " ++
          stringifyPretty sampleApi.createProjectResponse)), true,
       [.createProject
          [("projectName", some (.jstr "my-project")), ("projectDescription", none),
           ("kmsKeyId", none), ("slug", none), ("template", none),
           ("type", some (.jstr "secret-manager"))]]) :=
  ⟨(c5_create_project_required_fields sampleApi "my-project").1 rfl,
   (c5_create_project_required_fields sampleApi "my-project").2 "secret-manager"
     (List.Mem.head _)⟩

/-! ## Claim C7 -/

/-- C7 counterexample: an envelope without `id` whose method is unknown does
receive an error response (HTTP 404 with a -32601 JSON-RPC error body),
refuting the claim that the server emits no error response for any
id-less envelope. -/
theorem c7_counterexample :
    Http.handleJsonRpcRequest sampleApi ⟨none, some "bogus/method", none⟩ =
      .json 404 (.jobj [("jsonrpc", .jstr "2.0"),
        ("error", .jobj [("code", .jnum (-32601)),
          ("message", .jstr "Method not found: bogus/method")])]) :=
  rfl

/-- C7 (amended): only the method `notifications/initialized` is treated as
a notification — it is answered with 204 no-content regardless of `id`; the
server does not otherwise special-case id-less envelopes: an unknown method
without `id` receives the 404 response with error code -32601, and a failing
`tools/call` without `id` receives the 500 response with error code -32603
(the absent `id` merely drops the `id` field from the body). -/
theorem c7_notifications (api : RemoteApi) (params : Option Http.CallParams) :
    (∀ id : Option JValue,
      Http.handleJsonRpcRequest api ⟨id, some "notifications/initialized", params⟩ =
        .noContent) ∧
    (∀ m : String,
      m ∉ (["initialize", "notifications/initialized", "tools/list", "tools/call"] :
        List String) →
      Http.handleJsonRpcRequest api ⟨none, some m, params⟩ =
        .json 404 (.jobj [("jsonrpc", .jstr "2.0"),
          ("error", .jobj [("code", .jnum (-32601)),
            ("message", .jstr ("Method not found: " ++ m))])])) ∧
    (∀ (p : Http.CallParams) (e : Http.ToolCallError),
      (Http.handleToolCall api p.name p.arguments).1 = .error e →
      Http.handleJsonRpcRequest api ⟨none, some "tools/call", some p⟩ =
        .json 500 (Http.internalError none e.message)) := by
  refine ⟨fun id => rfl, ?_, ?_⟩
  · intro m hm
    simp only [List.mem_cons, List.not_mem_nil, or_false, not_or] at hm
    obtain ⟨h1, h2, h3, h4⟩ := hm
    have hc1 : ¬((some m : Option String) = some "initialize") := by simp [h1]
    have hc2 : ¬((some m : Option String) = some "notifications/initialized") := by
      simp [h2]
    have hc3 : ¬((some m : Option String) = some "tools/list") := by simp [h3]
    have hc4 : ¬((some m : Option String) = some "tools/call") := by simp [h4]
    unfold Http.handleJsonRpcRequest
    rw [if_neg hc1, if_neg hc2, if_neg hc3, if_neg hc4]
    rfl
  · intro p e he
    rcases hc : Http.handleToolCall api p.name p.arguments with ⟨res, calls⟩
    rw [hc] at he
    cases res with
    | ok r => simp at he
    | error e2 =>
        have he2 : e2 = e := by
          injection he
        subst he2
        unfold Http.handleJsonRpcRequest
        rw [if_neg (show ¬((some "tools/call" : Option String) = some "initialize")
            by decide),
          if_neg (show ¬((some "tools/call" : Option String) =
              some "notifications/initialized") by decide),
          if_neg (show ¬((some "tools/call" : Option String) = some "tools/list")
            by decide),
          if_pos rfl]
        simp only [hc]

/-- C7 witness: the notification method gets 204 with or without an id; a
concrete unknown method without id gets the 404 error; a concrete failing
`tools/call` without id gets the 500 internal error. -/
theorem c7_witness :
    Http.handleJsonRpcRequest sampleApi ⟨none, some "notifications/initialized", none⟩ =
      .noContent ∧
    Http.handleJsonRpcRequest sampleApi ⟨none, some "bogus/method", none⟩ =
      .json 404 (.jobj [("jsonrpc", .jstr "2.0"),
        ("error", .jobj [("code", .jnum (-32601)),
          ("message", .jstr "Method not found: bogus/method")])]) ∧
    Http.handleJsonRpcRequest sampleApi ⟨none, some "tools/call", some ⟨"nope", []⟩⟩ =
      .json 500 (Http.internalError none
        (Http.ToolCallError.unknownTool "nope").message) :=
  ⟨(c7_notifications sampleApi none).1 none,
   (c7_notifications sampleApi none).2.1 "bogus/method" (by decide),
   (c7_notifications sampleApi none).2.2 ⟨"nope", []⟩ (.unknownTool "nope") rfl⟩

end InfisicalMCP
